import Mathlib

/-!
Verification of the line-breaking-checker library (Unicode UAX 14 line
breaking) against its specification.  The JavaScript sources are embedded
shallowly: strings become lists of UTF-16 code units (`List Nat`), JS
numbers that can be `NaN`/`undefined` become `Option Int`, thrown
exceptions become `Except String`, and the `while` loops of the matcher
are given explicit fuel (the top-level entry points supply fuel that is
provably larger than any loop can consume, and fuel exhaustion is the
distinguished error "FUEL", which never occurs in the theorems below).
-/

namespace LBC

/-! ### JS numbers with NaN and undefined-propagating array access

A JS arithmetic value that may be `NaN` (for example the result of
`i - undefined`) is modelled as `Option Int`, `none` meaning `NaN`.
Comparisons with `NaN` are false, arithmetic propagates `NaN`, and array
access past the bounds yields `undefined` (`Option.none` at the outer
layer).
-/

/-- JS number used as an index: `none` models `NaN`. -/
abbrev JNum := Option Int

/-- JS addition: `NaN` propagates. -/
def jadd : JNum → JNum → JNum
  | some a, some b => some (a + b)
  | _, _ => none

/-- JS subtraction: `NaN` propagates. -/
def jsub : JNum → JNum → JNum
  | some a, some b => some (a - b)
  | _, _ => none

/-- JS `<`: any comparison with `NaN` is false. -/
def jlt : JNum → JNum → Bool
  | some a, some b => a < b
  | _, _ => false

/-- JS `>`: any comparison with `NaN` is false. -/
def jgt : JNum → JNum → Bool
  | some a, some b => b < a
  | _, _ => false

/-- JS `===` on numbers: `NaN === x` is false. -/
def jeq : JNum → JNum → Bool
  | some a, some b => a = b
  | _, _ => false

/-- JS array subscript with a possibly-NaN number: `arr[NaN]`, `arr[-1]`
and reads past the end give `undefined` (`none`). -/
def jget? {α : Type} (l : List α) : JNum → Option α
  | none => none
  | some k => if k < 0 then none else l.get? k.toNat

/-- JS array subscript with an integer index. -/
def jgetI {α : Type} (l : List α) (i : Int) : Option α :=
  if i < 0 then none else l.get? i.toNat

/-! ### BreakType

Modelled from the spec: the file `breaktypes.mjs` is not among the
sources, but the spec (section 2) and the README pin the values
UNKNOWN=0, FORBIDDEN=1, MANDATORY=2, ALLOWED=4, exposed as bit flags.
A JS value that may be `undefined` (a rule parsed without a verdict
symbol) is `Option Nat`, `none` meaning `undefined`.
-/

def BT.UNKNOWN : Nat := 0
def BT.FORBIDDEN : Nat := 1
def BT.MANDATORY : Nat := 2
def BT.ALLOWED : Nat := 4

/-! ### Pattern trees (ruleparser.mjs)

A parsed token is a tagged tree exactly as built by `RuleParser`:
`{ type, content }` objects whose `content` is a string, a number or an
array of child tokens.
-/

inductive Token : Type where
  | base (content : String)
  | cls (content : String)
  | gc (content : String)
  | codepoint (content : Int)
  | extpict
  | eastasian
  | modifier (content : String)
  | set (content : List Token)
  | seq (content : List Token)

/-- JS test `token.content !== '*'` used by the sequence walker: only a
token whose `content` field is the one-character string `*` compares
equal (the `content` of `set`/`seq`/`codepoint` is an array or a number,
and the `content` of `extpict`/`eastasian` is the keyword itself). -/
def Token.contentIsStar : Token → Bool
  | .base c => c = "*"
  | .cls c => c = "*"
  | .gc c => c = "*"
  | .modifier c => c = "*"
  | _ => false

def Token.isModifier : Token → Bool
  | .modifier _ => true
  | _ => false

/-- A parsed rule: `{ before, after, result, side_effect, name }`.  The
only side effect in the repository is the `std_remove_cm_sequences`
callback (LB9/LB10), bound by the checker constructor, so the
side-effect slot is modelled by a flag selecting that effect. -/
structure Rule : Type where
  before : Token
  after : Token
  result : Option Nat
  sideEffect : Bool

/-! ### Tokenisation (RuleParser.parseRule: `str.split(/\s+/)`)

The rule strings use only plain spaces, but the splitter mirrors the JS
semantics of splitting on whitespace runs, including the empty leading
token for a string that starts with whitespace and the empty trailing
token for one that ends with whitespace.
-/

def isWsChar (c : Char) : Bool :=
  c = ' ' ∨ c = '\t' ∨ c = '\n' ∨ c = '\r'

/-- Splitter state machine: `skipping = false` collects the current token
into `acc`, `skipping = true` is inside a whitespace run. -/
def splitWsAux : List Char → List Char → Bool → List String
  | [], acc, false => [String.mk acc.reverse]
  | [], _, true => [""]
  | c :: rest, acc, false =>
      if isWsChar c then String.mk acc.reverse :: splitWsAux rest [] true
      else splitWsAux rest (c :: acc) false
  | c :: rest, acc, true =>
      if isWsChar c then splitWsAux rest acc true
      else splitWsAux rest [c] false

def splitWs (s : String) : List String :=
  splitWsAux s.toList [] false

/-! ### Token recognition (RuleParser.parseToken)

The JS switch matches a token against `token.match(regex)?.[0]`, which
equals the token itself exactly when the whole token is the leftmost
match of the regex; the recognisers below are the whole-token
characterisations of the three regexes.
-/

def isHexDigit (c : Char) : Bool :=
  ('0' ≤ c ∧ c ≤ '9') ∨ ('A' ≤ c ∧ c ≤ 'F') ∨ ('a' ≤ c ∧ c ≤ 'f')

def hexVal (c : Char) : Nat :=
  if '0' ≤ c ∧ c ≤ '9' then c.toNat - '0'.toNat
  else if 'A' ≤ c ∧ c ≤ 'F' then c.toNat - 'A'.toNat + 10
  else c.toNat - 'a'.toNat + 10

def hexListVal (cs : List Char) : Nat :=
  cs.foldl (fun acc c => 16 * acc + hexVal c) 0

/-- Whole-token match of `/\\u[0-9A-Fa-f]{4,6}/`; the content is
`Number('0x' + token.slice(2))`. -/
def cpTok? (s : String) : Option Int :=
  match s.toList with
  | '\\' :: 'u' :: hs =>
      if 4 ≤ hs.length ∧ hs.length ≤ 6 ∧ hs.all isHexDigit then
        some (hexListVal hs) else none
  | _ => none

def isGcChar (c : Char) : Bool :=
  ('A' ≤ c ∧ c ≤ 'Z') ∨ ('a' ≤ c ∧ c ≤ 'z') ∨ c = '&'

/-- Whole-token match of `/gc\([A-Za-z&]{2}\)/`; the content is
`token.slice(3, 5)`. -/
def gcTok? (s : String) : Option String :=
  match s.toList with
  | ['g', 'c', '(', a, b, ')'] =>
      if isGcChar a ∧ isGcChar b then some (String.mk [a, b]) else none
  | _ => none

def isClassChar (c : Char) : Bool :=
  ('A' ≤ c ∧ c ≤ 'Z') ∨ ('0' ≤ c ∧ c ≤ '9')

/-- Whole-token match of `/[A-Z0-9]{2,3}/`. -/
def isClassTok (s : String) : Bool :=
  2 ≤ s.toList.length ∧ s.toList.length ≤ 3 ∧ s.toList.all isClassChar

/-- Recognise a non-verdict, non-bracket token, in the order of the JS
switch cases (keywords, code point, general category, class, modifier). -/
def simpleTok? (t : String) : Option Token :=
  if t = "any" ∨ t = "sot" ∨ t = "eot" then some (.base t)
  else if t = "eastasian" then some .eastasian
  else if t = "extpict" then some .extpict
  else match cpTok? t with
  | some n => some (.codepoint n)
  | none => match gcTok? t with
    | some g => some (.gc g)
    | none =>
        if isClassTok t then some (.cls t)
        else if t = "^" ∨ t = "&" ∨ t = "-" ∨ t = "*" then some (.modifier t)
        else none

/-- Verdict symbols set `ruleObj.result` and switch the context to the
after side. -/
def verdictTok? (t : String) : Option Nat :=
  if t = "×" then some BT.FORBIDDEN
  else if t = "!" then some BT.MANDATORY
  else if t = "÷" then some BT.ALLOWED
  else none

/-! ### Parsing (RuleParser.parseRule / parseToken)

`parseGroup` is the `while (tokens[i] !== closer)` loop that fills the
content of a `(`-set or `[`-sequence; running past the end of the token
list dereferences `undefined` in JS (a TypeError).  A verdict symbol
inside a group still sets the result, but the context switch it returns
is discarded by the loop.  `parseTop` is the top-level loop of
`parseRule`, where a verdict symbol rebinds the context to the after
side.  Both are fuelled; each step consumes at least one token, so the
fuel supplied by `parseRule` suffices.
-/

def parseGroup : Nat → List String → Nat → String → Option Nat →
    Except String (List Token × Option Nat × Nat)
  | 0, _, _, _, _ => .error "FUEL"
  | f+1, toks, i, closer, res =>
      match toks.get? i with
      | none => .error "TypeError"
      | some t =>
          if t = closer then .ok ([], res, i + 1)
          else match verdictTok? t with
          | some v => parseGroup f toks (i + 1) closer (some v)
          | none =>
              if t = "(" then
                match parseGroup f toks (i + 1) ")" res with
                | .error e => .error e
                | .ok (inner, res2, i2) =>
                    match parseGroup f toks i2 closer res2 with
                    | .error e => .error e
                    | .ok (rest, res3, i3) => .ok (.set inner :: rest, res3, i3)
              else if t = "[" then
                match parseGroup f toks (i + 1) "]" res with
                | .error e => .error e
                | .ok (inner, res2, i2) =>
                    match parseGroup f toks i2 closer res2 with
                    | .error e => .error e
                    | .ok (rest, res3, i3) => .ok (.seq inner :: rest, res3, i3)
              else if t = "|" ∨ t = ")" ∨ t = "]" then
                parseGroup f toks (i + 1) closer res
              else match simpleTok? t with
              | some tok =>
                  match parseGroup f toks (i + 1) closer res with
                  | .error e => .error e
                  | .ok (rest, res2, i2) => .ok (tok :: rest, res2, i2)
              | none => .error ("Unrecognized token: " ++ t)

def parseTop : Nat → List String → Nat → List Token → List Token → Bool →
    Option Nat → Except String (List Token × List Token × Option Nat)
  | 0, _, _, _, _, _, _ => .error "FUEL"
  | f+1, toks, i, bef, aft, isAfter, res =>
      match toks.get? i with
      | none => .ok (bef, aft, res)
      | some t =>
          match verdictTok? t with
          | some v => parseTop f toks (i + 1) bef aft true (some v)
          | none =>
              if t = "(" then
                match parseGroup f toks (i + 1) ")" res with
                | .error e => .error e
                | .ok (inner, res2, i2) =>
                    if isAfter then parseTop f toks i2 bef (aft ++ [.set inner]) isAfter res2
                    else parseTop f toks i2 (bef ++ [.set inner]) aft isAfter res2
              else if t = "[" then
                match parseGroup f toks (i + 1) "]" res with
                | .error e => .error e
                | .ok (inner, res2, i2) =>
                    if isAfter then parseTop f toks i2 bef (aft ++ [.seq inner]) isAfter res2
                    else parseTop f toks i2 (bef ++ [.seq inner]) aft isAfter res2
              else if t = "|" ∨ t = ")" ∨ t = "]" then
                parseTop f toks (i + 1) bef aft isAfter res
              else match simpleTok? t with
              | some tok =>
                  if isAfter then parseTop f toks (i + 1) bef (aft ++ [tok]) isAfter res
                  else parseTop f toks (i + 1) (bef ++ [tok]) aft isAfter res
              | none => .error ("Unrecognized token: " ++ t)

/-! ### Post-processing (cleanRule / reverseSequences) -/

/-- RuleParser.cleanPart: a sequence whose sole child is a sequence (or a
set whose sole child is a set) is flattened to the contents of the
child, once, and then the children are cleaned recursively.  The fuel
bounds the tree depth; the trees of this repository are shallow. -/
def cleanPart : Nat → Token → Token
  | 0, t => t
  | f+1, .seq l =>
      let l2 := match l with
        | [Token.seq inner] => inner
        | _ => l
      .seq (l2.map (cleanPart f))
  | f+1, .set l =>
      let l2 := match l with
        | [Token.set inner] => inner
        | _ => l
      .set (l2.map (cleanPart f))
  | _, t => t

/-- Sequential left-to-right swap loop of `reverseSequences`: every
modifier that ended up after its operand in the reversed list is swapped
back in front of it. -/
def swapModsGo : Token → List Token → List Token
  | pending, [] => [pending]
  | pending, b :: rest =>
      if b.isModifier then b :: swapModsGo pending rest
      else pending :: swapModsGo b rest

def swapMods : List Token → List Token
  | [] => []
  | a :: rest => swapModsGo a rest

/-- RuleParser.reverseSequences: reverse the content of every sequence
(re-pairing modifiers with their operands) and recurse into children. -/
def reverseSequences : Nat → Token → Token
  | 0, t => t
  | f+1, .seq l => .seq ((swapMods l.reverse).map (reverseSequences f))
  | f+1, .set l => .set (l.map (reverseSequences f))
  | _, t => t

/-- A raw rule of `linebreakingrules.mjs`: the rule string and whether
the rule carries the side-effect function. -/
abbrev RawRule := String × Bool

/-- RuleParser.parseRule for a parser constructed with
`reverseBefore = true` (the default used by the checker). -/
def parseRule (raw : RawRule) : Except String Rule :=
  let toks := splitWs raw.1
  match parseTop (2 * toks.length + 4) toks 0 [] [] false none with
  | .error e => .error e
  | .ok (bef, aft, res) =>
      let before := cleanPart 100 (.seq bef)
      let after := cleanPart 100 (.seq aft)
      .ok ⟨reverseSequences 100 before, after, res, raw.2⟩

def parseRules (raws : List RawRule) : Except String (List Rule) :=
  match raws with
  | [] => .ok []
  | r :: rest =>
      match parseRule r, parseRules rest with
      | .ok a, .ok b => .ok (a :: b)
      | .error e, _ => .error e
      | _, .error e => .error e

/-! ### The Unicode 17.0 rule list (linebreakingrules.mjs)

Each entry is the rule string together with the presence of the
side-effect function (only the LB9/LB10 rule has one; its name
`std_remove_cm_sequences` is bound to the combining-sequence removal
routine by the checker constructor).
-/

def lineBreakingRulesV17 : List RawRule := [
  ("sot × any", false),
  ("any ! eot", false),
  ("BK ! any", false),
  ("CR × LF", false),
  ("( CR | LF | NL ) ! any", false),
  ("any × ( BK | CR | LF | NL )", false),
  ("any × ( SP | ZW )", false),
  ("[ ZW * SP ] ÷ any", false),
  ("ZWJ × any", false),
  ("^ ( sot | BK | CR | LF | NL | SP | ZW ) × ( CM | ZWJ )", true),
  ("any × WJ", false),
  ("WJ × any", false),
  ("GL × any", false),
  ("^ ( SP | BA | HY | HH ) × GL", false),
  ("any × ( CL | CP | EX | SY )", false),
  ("[ OP * SP ] × any", false),
  ("[ ( sot | BK | CR | LF | NL | OP | QU | GL | SP | ZW ) ( gc(Pi) & QU ) * SP ] × any", false),
  ("any × [ ( gc(Pf) & QU ) ( SP | GL | WJ | CL | QU | CP | EX | IS | SY | BK | CR | LF | NL | ZW | eot ) ]", false),
  ("SP ÷ [ IS NU ]", false),
  ("any × IS", false),
  ("[ ( CL | CP ) * SP ] × NS", false),
  ("[ B2 * SP ] × B2", false),
  ("SP ÷ any", false),
  ("any × ( QU - gc(Pi) )", false),
  ("( QU - gc(Pf) ) × any", false),
  ("^ eastasian × QU", false),
  ("any × [ QU ( ^ eastasian | eot ) ]", false),
  ("QU × ^ eastasian", false),
  ("[ ( sot | ^ eastasian ) QU ] × any", false),
  ("any ÷ CB", false),
  ("CB ÷ any", false),
  ("[ ( sot | BK | CR | LF | NL | SP | ZW | CB | GL ) ( HY | HH ) ] × ( AL | HL )", false),
  ("any × ( BA | HH | HY | NS )", false),
  ("BB × any", false),
  ("[ HL ( HY | HH ) ] × ^ HL", false),
  ("SY × HL", false),
  ("any × IN", false),
  ("( AL | HL ) × NU", false),
  ("NU × ( AL | HL )", false),
  ("PR × ( ID | EB | EM )", false),
  ("( ID | EB | EM ) × PO", false),
  ("( PR | PO ) × ( AL | HL )", false),
  ("( AL | HL ) × ( PR | PO )", false),
  ("[ NU * ( SY | IS ) ( CL | CP ) ] × ( PO | PR )", false),
  ("[ NU * ( SY | IS ) ] × ( PO | PR | NU )", false),
  ("( PO | PR ) × [ OP NU ]", false),
  ("( PO | PR ) × [ OP IS NU ]", false),
  ("( PO | PR | HY | IS ) × NU", false),
  ("JL × ( JL | JV | H2 | H3 )", false),
  ("( JV | H2 ) × ( JV | JT )", false),
  ("( JT | H3 ) × JT", false),
  ("( JL | JV | JT | H2 | H3 ) × PO", false),
  ("PR × ( JL | JV | JT | H2 | H3 )", false),
  ("( AL | HL ) × ( AL | HL )", false),
  ("AP × ( AK | \\u25CC | AS )", false),
  ("( AK | \\u25CC | AS ) × ( VF | VI )", false),
  ("[ ( AK | \\u25CC | AS ) VI ] × ( AK | \\u25CC )", false),
  ("( AK | \\u25CC | AS ) × [ ( AK | \\u25CC | AS ) VF ]", false),
  ("IS × ( AL | HL )", false),
  ("( AL | HL | NU ) × ( OP - eastasian )", false),
  ("( CP - eastasian ) × ( AL | HL | NU )", false),
  ("[ sot * [ RI RI ] RI ] × RI", false),
  ("[ ^ RI * [ RI RI ] RI ] × RI", false),
  ("EB × EM", false),
  ("( extpict & gc(Cn) ) × EM", false),
  ("any ÷ any", false)]

/-- The parsed default rule list of the checker (falling back to the
empty list on a parse error; the theorem `v17rules_parse_ok` below
records that parsing in fact succeeds). -/
def v17rules : List Rule :=
  match parseRules lineBreakingRulesV17 with
  | .ok l => l
  | .error _ => []

/-! ### The checker state (linebreakingchecker module)

The Unicode data collaborators (the class table built by `makeLBC`, the
East-Asian code point set, and the `\p{Extended_Pictographic}` regex
test) are parameters of the embedding: an `Env` supplies the three
lookups.  The class table maps a code point to its
`{ line_breaking_class, general_category }` entry or to `undefined`.
-/

structure Env : Type where
  table : Int → Option (String × String)
  eastAsian : Int → Bool
  extPict : Int → Bool

/-- getClsAndGC: destructuring with the fallback object
`{ line_breaking_class: undefined, general_category: '' }`. -/
def getClsAndGC (env : Env) (cp : Int) : Option String × String :=
  match env.table cp with
  | some (c, g) => (some c, g)
  | none => (none, "")

/-- getGeneralCategory: optional chaining, `undefined` when the code
point has no table entry. -/
def getGeneralCategory (env : Env) (cp : Int) : Option String :=
  (env.table cp).map (·.2)

/-- computeCodePointFromSurrogatePair, with the JS constant
`0x10000 - (0xd800 << 10) - 0xdc00`. -/
def computeCodePointFromSurrogatePair (high low : Nat) : Int :=
  ((high : Int) <<< 10) + (low : Int) + (0x10000 - ((0xd800 : Int) <<< 10) - 0xdc00)

/-- LineBreakingChecker.isSurrogatePair (static). -/
def isSurrogatePair (lead trail : Nat) : Bool :=
  0xd800 ≤ lead ∧ lead ≤ 0xdbff ∧ 0xdc00 ≤ trail ∧ trail ≤ 0xdfff

/-- The mutable private fields of `LineBreakingChecker` together with
its construction parameters.  The text is the list of UTF-16 code units
of the JS string. -/
structure Checker : Type where
  env : Env
  criteria : Option (Option String → String → Option String)
  rules : List Rule
  text : List Nat := []
  codePoints : List Int := []
  offsetsSurrogates : List Nat := []
  classes : List (Option String) := []
  origClasses : List (Option String) := []
  origCodePoints : List Int := []
  classesWithoutCS : List (Option String) := []
  codePointsWithoutCS : List Int := []
  offsetsCombiningSeqs : List Nat := []
  applyOffset : Bool := false

/-- The constructor `new LineBreakingChecker(criteria, rules, ...)`
before any text is installed. -/
def mkChecker (env : Env) (criteria : Option (Option String → String → Option String))
    (rules : List Rule) : Checker :=
  { env := env, criteria := criteria, rules := rules }

/-! ### setText pipeline -/

/-- One step of `String.prototype.codePointAt` as used by
`#setCodePoints`: at a leading surrogate followed by a trailing
surrogate the pair is combined, otherwise the lone code unit is the
code point. -/
def codePointAtCur (u : Nat) (next : Option Nat) : Int :=
  match next with
  | some l =>
      if (0xd800 ≤ u ∧ u ≤ 0xdbff) ∧ (0xdc00 ≤ l ∧ l ≤ 0xdfff) then
        computeCodePointFromSurrogatePair u l
      else (u : Int)
  | none => (u : Int)

/-- LineBreakingChecker.#setCodePoints: walk the code units, pushing the
running low-surrogate offset before each unit, decoding the code point,
and skipping the trailing unit of a pair (`highSurrogate` flag).
Returns `(codePoints, offsetsSurrogates)`. -/
def setCodePointsAux : List Nat → Bool → Nat → List Int × List Nat
  | [], _, off => ([], [off])
  | u :: rest, high, off =>
      let cp := codePointAtCur u rest.head?
      let r := setCodePointsAux rest (cp > 65535) (if cp > 65535 then off + 1 else off)
      (if high then r.1 else cp :: r.1, off :: r.2)

def setCodePoints (text : List Nat) : List Int × List Nat :=
  setCodePointsAux text false 0

/-- The default class resolution of `#assignLineBreakingClasses` (no
caller criteria): AI/SG/XX to AL, SA by general category, CJ to NS, and
every other value (including `undefined`) passed through. -/
def resolveDefault (cls : Option String) (gc : String) : Option String :=
  if cls = some "AI" ∨ cls = some "SG" ∨ cls = some "XX" then some "AL"
  else if cls = some "SA" then
    if gc = "Mn" ∨ gc = "Mc" then some "CM" else some "AL"
  else if cls = some "CJ" then some "NS"
  else cls

/-- LineBreakingChecker.#assignLineBreakingClasses. -/
def assignLineBreakingClasses (env : Env)
    (criteria : Option (Option String → String → Option String))
    (cps : List Int) : List (Option String) :=
  cps.map fun c =>
    let p := getClsAndGC env c
    match criteria with
    | none => resolveDefault p.1 p.2
    | some f => f p.1 p.2

/-- JS falsiness of the previous class value: `undefined` and the empty
string are falsy, any other string is truthy. -/
def jsFalsyStr : Option String → Bool
  | none => true
  | some s => s = ""

/-- LineBreakingChecker.#setCombiningSequencesMaps, over the paired
entries of the class array and the code point array (the two arrays
built by `setText` always have equal length).  State: the previous
class and the running `totOffset`.  Returns
`(classesWithoutCS, codePointsWithoutCS, offsetsCombiningSeqs)`. -/
def csAux : List (Option String × Int) → Option String → Nat →
    List (Option String) × List Int × List Nat
  | [], _, tot => ([], [], [tot])
  | (el, cp) :: rest, prev, tot =>
      if el = some "CM" ∨ el = some "ZWJ" then
        if jsFalsyStr prev ∨ (prev = some "SP" ∨ prev = some "BK" ∨ prev = some "CR" ∨
            prev = some "LF" ∨ prev = some "NL" ∨ prev = some "ZW") then
          let r := csAux rest el tot
          (some "AL" :: r.1, 0x41 :: r.2.1, tot :: r.2.2)
        else
          let r := csAux rest el (tot + 1)
          (r.1, r.2.1, (tot + 1) :: r.2.2)
      else
        let r := csAux rest el tot
        (el :: r.1, cp :: r.2.1, tot :: r.2.2)

/-- LineBreakingChecker.setText: decode the code points, assign the
classes, precompute the combining-sequence maps (which also clears
`applyOffset`), and record the original views. -/
def setText (ch : Checker) (text : List Nat) : Checker :=
  let scp := setCodePoints text
  let classes := assignLineBreakingClasses ch.env ch.criteria scp.1
  let cs := csAux (classes.zip scp.1) none 0
  { ch with
      text := text
      codePoints := scp.1
      offsetsSurrogates := scp.2
      classes := classes
      origClasses := classes
      origCodePoints := scp.1
      classesWithoutCS := cs.1
      codePointsWithoutCS := cs.2.1
      offsetsCombiningSeqs := cs.2.2
      applyOffset := false }

/-- LineBreakingChecker.#removeCombiningSequences: the side effect bound
to the LB9/LB10 rule swaps in the transformed views and raises the
`applyOffset` flag. -/
def removeCombiningSequences (ch : Checker) : Checker :=
  { ch with
      classes := ch.classesWithoutCS
      codePoints := ch.codePointsWithoutCS
      applyOffset := true }

/-! ### The matcher (#consumeToken and friends)

`#consumeToken` returns `{ result, index, next_token_index? }`; errors
thrown during matching (RangeError from `String.fromCodePoint` on an
`undefined` code point, TypeError from dereferencing a missing sibling,
and the explicit `Invalid ...` errors) are `Except.error` values.
-/

structure CRes : Type where
  result : Bool
  index : JNum
  next : Option Nat

/-- checkBase.  The `eot` case compares against the length of the
currently active code point array. -/
def checkBase (ch : Checker) (b : String) (i : JNum) : Except String Bool :=
  if b = "any" then .ok true
  else if b = "sot" then .ok (jlt i (some 0))
  else if b = "eot" then .ok (jeq i (some (ch.codePoints.length : Int)))
  else .error ("Error: Invalid rule base value: " ++ b)

/-- checkClass: `cls === this.classes[i]`; an out-of-range read or an
`undefined` entry compares unequal to the class string. -/
def checkClass (ch : Checker) (cls : String) (i : JNum) : Bool :=
  match jget? ch.classes i with
  | some (some c) => cls = c
  | _ => false

/-- checkGeneralCategory: `gc === getGeneralCategory(codePoints[i])`;
both an out-of-range read and a missing table entry give `undefined`. -/
def checkGeneralCategory (ch : Checker) (gc : String) (i : JNum) : Bool :=
  match jget? ch.codePoints i with
  | some cp =>
      match getGeneralCategory ch.env cp with
      | some g => gc = g
      | none => false
  | none => false

/-- checkCodePoint: `cp === this.codePoints[i]`. -/
def checkCodePoint (ch : Checker) (cp : Int) (i : JNum) : Bool :=
  match jget? ch.codePoints i with
  | some c => cp = c
  | none => false

/-- checkExtPict: `String.fromCodePoint(this.codePoints[i])` throws a
RangeError when the read yields `undefined` (or an invalid code point);
otherwise the Extended_Pictographic test is the `Env` lookup. -/
def checkExtPict (ch : Checker) (i : JNum) : Except String Bool :=
  match jget? ch.codePoints i with
  | some cp =>
      if cp < 0 ∨ 0x10FFFF < cp then .error "RangeError"
      else .ok (ch.env.extPict cp)
  | none => .error "RangeError"

/-- checkEastAsian: `Set.has(undefined)` is false. -/
def checkEastAsian (ch : Checker) (i : JNum) : Bool :=
  match jget? ch.codePoints i with
  | some cp => ch.env.eastAsian cp
  | none => false

/-- The sibling lookup `parent.content[next_token_index]` used by the
modifier cases: a `null` parent, a parent without array content, or an
index past the end throws when the result is dereferenced. -/
def sibling (parent : Option Token) (k : Nat) : Except String Token :=
  match parent with
  | some (.set l) => match l.get? k with
      | some t => .ok t
      | none => .error "TypeError"
  | some (.seq l) => match l.get? k with
      | some t => .ok t
      | none => .error "TypeError"
  | _ => .error "TypeError"

/-- The pending work of the matcher recursion: a token to consume, the
`while` loop of the `*` modifier, or the child walk of a set or a
sequence.  Folding the four mutually recursive routines into one
fuel-indexed function keeps the recursion structural (so that it
unfolds definitionally). -/
inductive Job : Type where
  | tok (t : Token) (prev : Option Bool) (ntk : Nat)
  | star (t : Token) (ntk : Nat) (r : CRes)
  | walkSet (l : List Token) (prevRes : Option Bool) (i0 : JNum) (ti : Nat)
  | walkSeq (l : List Token) (prevRes : Option Bool) (i0 : JNum) (ti : Nat)

/-- The set walker returns true at the first child whose result is true
unless the next child is a binary modifier (`&` or `-`). -/
def setEarlyTrue (l : List Token) (ti : Nat) : Bool :=
  match l.get? ti with
  | some (.modifier m) => m = "*" ∨ m = "^"
  | some _ => true
  | none => true

/-- LineBreakingChecker.#consumeToken.  `Job.tok` is a direct call;
`Job.star` is the `while` loop of the `*` modifier (condition
`result.result && result.index > 0 && result.index < codePoints.length - 1`);
`Job.walkSet` and `Job.walkSeq` are the child loops of the `set` and
`sequence` cases.  The `i` argument carries the current index and
`parent`/`step` are passed through unchanged. -/
def consume : Nat → Checker → Job → JNum → Int → Option Token → Except String CRes
  | 0, _, _, _, _, _ => .error "FUEL"
  | f+1, ch, job, i, step, parent =>
      match job with
      | .tok t prev ntk =>
          match t with
          | .base c =>
              match checkBase ch c i with
              | .ok r => .ok ⟨r, i, none⟩
              | .error e => .error e
          | .cls c => .ok ⟨checkClass ch c i, i, none⟩
          | .gc c => .ok ⟨checkGeneralCategory ch c i, i, none⟩
          | .codepoint c => .ok ⟨checkCodePoint ch c i, i, none⟩
          | .extpict =>
              match checkExtPict ch i with
              | .ok r => .ok ⟨r, i, none⟩
              | .error e => .error e
          | .eastasian => .ok ⟨checkEastAsian ch i, i, none⟩
          | .modifier c =>
              if c = "^" then
                match sibling parent ntk with
                | .error e => .error e
                | .ok s =>
                    match consume f ch (.tok s prev (ntk + 1)) i step parent with
                    | .error e => .error e
                    | .ok r => .ok ⟨!r.result, r.index, some (r.next.getD (ntk + 1))⟩
              else if c = "&" then
                if prev = some false then .ok ⟨false, i, some (ntk + 1)⟩
                else match sibling parent ntk with
                | .error e => .error e
                | .ok s =>
                    match consume f ch (.tok s prev (ntk + 1)) i step parent with
                    | .error e => .error e
                    | .ok r => .ok ⟨r.result, r.index, some (r.next.getD (ntk + 1))⟩
              else if c = "-" then
                if prev = some false then .ok ⟨false, i, some (ntk + 1)⟩
                else match sibling parent ntk with
                | .error e => .error e
                | .ok s =>
                    match consume f ch (.tok s prev (ntk + 1)) i step parent with
                    | .error e => .error e
                    | .ok r => .ok ⟨!r.result, r.index, some (r.next.getD (ntk + 1))⟩
              else if c = "*" then
                match sibling parent ntk with
                | .error e => .error e
                | .ok s =>
                    match consume f ch (.tok s prev (ntk + 1)) i step parent with
                    | .error e => .error e
                    | .ok r =>
                        match consume f ch (.star s ntk r) i step parent with
                        | .error e => .error e
                        | .ok r2 => .ok ⟨true, r2.index, some (r2.next.getD (ntk + 1))⟩
              else .error ("Error: Invalid modifier value: " ++ c)
          | .set l => consume f ch (.walkSet l none i 0) i step (some (.set l))
          | .seq l => consume f ch (.walkSeq l none i 0) i step (some (.seq l))
      | .star t ntk r =>
          if r.result ∧ jgt r.index (some 0) ∧
              jlt r.index (some ((ch.codePoints.length : Int) - 1)) then
            match consume f ch (.tok t (some r.result) (ntk + 1)) (jadd r.index (some step)) step parent with
            | .error e => .error e
            | .ok r2 => consume f ch (.star t ntk r2) i step parent
          else .ok r
      | .walkSet l prevRes i0 ti =>
          match l.get? ti with
          | none => .ok ⟨false, i0, none⟩
          | some t =>
              match consume f ch (.tok t prevRes (ti + 1)) i step parent with
              | .error e => .error e
              | .ok r =>
                  let ti2 := r.next.getD (ti + 1)
                  if r.result ∧ setEarlyTrue l ti2 then .ok ⟨true, i0, none⟩
                  else consume f ch (.walkSet l (some r.result) i0 ti2) r.index step parent
      | .walkSeq l prevRes i0 ti =>
          match l.get? ti with
          | none => .ok ⟨true, i, none⟩
          | some t =>
              match consume f ch (.tok t prevRes (ti + 1)) i step parent with
              | .error e => .error e
              | .ok r =>
                  if r.result = false then .ok ⟨false, i0, none⟩
                  else
                    let i2 := if t.contentIsStar then r.index else jadd r.index (some step)
                    consume f ch (.walkSeq l (some r.result) i0 (r.next.getD (ti + 1))) i2 step parent

/-- Entry form of `#consumeToken` for a token (the `i` of a `walkSet` or
`walkSeq` job is the running index of that loop, so the wrapper passes
the token and its starting index). -/
def consumeToken (f : Nat) (ch : Checker) (t : Token) (i : JNum) (step : Int)
    (parent : Option Token) (prev : Option Bool) (ntk : Nat) : Except String CRes :=
  consume f ch (.tok t prev ntk) i step parent

/-- The fuel handed to each rule check: the loops of the matcher advance
the index by one code point per step, so this bound is never reached
(reaching it would be the error "FUEL", which the theorems exclude). -/
def consumeFuel (ch : Checker) : Nat :=
  1000 * (ch.codePoints.length + ch.classesWithoutCS.length + 2)

/-- LineBreakingChecker.#checkRule: evaluate the before side leftwards
from `i - 1` and, if it matched, the after side rightwards from `i`;
on a match the verdict is `rule.result`, otherwise the side effect (if
any) fires and the verdict is UNKNOWN. -/
def checkRule (f : Nat) (ch : Checker) (rule : Rule) (i : JNum) :
    Except String (Option Nat × Checker) :=
  match consumeToken f ch rule.before (jadd i (some (-1))) (-1) none none 0 with
  | .error e => .error e
  | .ok b =>
      if b.result then
        match consumeToken f ch rule.after i 1 none none 0 with
        | .error e => .error e
        | .ok a =>
            if a.result then .ok (rule.result, ch)
            else .ok (some BT.UNKNOWN, if rule.sideEffect then removeCombiningSequences ch else ch)
      else .ok (some BT.UNKNOWN, if rule.sideEffect then removeCombiningSequences ch else ch)

/-- The index fed to `#checkRule` for a rule evaluated at code-unit
position `i`:
`i - offsetsSurrogates[i] - offsetsCombiningSeqs[i - offsetsSurrogates[i]] * !!applyOffset`
with JS `undefined`/`NaN` propagation. -/
def ruleIndex (ch : Checker) (i : Int) : JNum :=
  let oS : JNum :=
    match jgetI ch.offsetsSurrogates i with
    | some v => some (v : Int)
    | none => none
  let a := jsub (some i) oS
  let m : JNum :=
    match jget? ch.offsetsCombiningSeqs a with
    | some v => some ((v : Int) * (if ch.applyOffset then 1 else 0))
    | none => none
  jsub a m

/-- The `for (const rule of this.rules)` loop of isPosLineBreaking: the
index is recomputed for every rule (the side effect can flip
`applyOffset` mid-loop) and the loop stops at the first verdict that is
not strictly equal to UNKNOWN. -/
def checkRules (f : Nat) : List Rule → Checker → Int → Except String (Option Nat × Checker)
  | [], ch, _ => .ok (some BT.UNKNOWN, ch)
  | r :: rest, ch, i =>
      match checkRule f ch r (ruleIndex ch i) with
      | .error e => .error e
      | .ok (res, ch2) =>
          if res ≠ some BT.UNKNOWN then .ok (res, ch2)
          else checkRules f rest ch2 i

/-- The cleanup at the end of isPosLineBreaking: restore the original
views when the side effect ran. -/
def restoreView (ch : Checker) : Checker :=
  if ch.applyOffset then
    { ch with
        classes := ch.origClasses
        codePoints := ch.origCodePoints
        applyOffset := false }
  else ch

/-- LineBreakingChecker.isPosLineBreaking.  A position strictly inside a
surrogate pair is FORBIDDEN before any rule runs; otherwise the rules
are tried in order.  The cleanup runs on a normal return only (a thrown
error propagates past it, as in JS). -/
def isPosLineBreaking (ch : Checker) (i : Int) : Except String (Option Nat × Checker) :=
  if 0 < i ∧ i < (ch.text.length : Int) ∧
      isSurrogatePair (ch.text.getD (i - 1).toNat 0) (ch.text.getD i.toNat 0) then
    .ok (some BT.FORBIDDEN, restoreView ch)
  else
    match checkRules (consumeFuel ch) ch.rules ch i with
    | .error e => .error e
    | .ok (res, ch2) => .ok (res, restoreView ch2)

/-! ### The segment iterator (`[Symbol.iterator]`)

The iterator yields `{ index: current, breakType: result }` for every
position `0 .. text.length` whose verdict has a bit in common with
`MANDATORY|ALLOWED`, and finishes once `current` exceeds the text
length.  `iterResults` collects the whole yielded stream.  A JS verdict
of `undefined` contributes no bits (`undefined & mask` is 0).
-/

structure IterRecord : Type where
  index : Int
  breakType : Option Nat

def verdictBits : Option Nat → Nat
  | none => 0
  | some v => v &&& (BT.MANDATORY ||| BT.ALLOWED)

def iterAux (fuel : Nat) (ch : Checker) (current : Int) :
    Except String (List IterRecord × Checker) :=
  match fuel with
  | 0 => .error "FUEL"
  | f+1 =>
      if (ch.text.length : Int) < current then .ok ([], ch)
      else
        match isPosLineBreaking ch current with
        | .error e => .error e
        | .ok (res, ch2) =>
            match iterAux f ch2 (current + 1) with
            | .error e => .error e
            | .ok (rest, ch3) =>
                if verdictBits res ≠ 0 then .ok (⟨current, res⟩ :: rest, ch3)
                else .ok (rest, ch3)

def iterResults (ch : Checker) : Except String (List IterRecord × Checker) :=
  iterAux (ch.text.length + 2) ch 0

/-! ### Basic facts about the default rule list -/

/-- The LB2 rule `sot × any` as parsed. -/
def vr0 : Rule := ⟨.seq [.base "sot"], .seq [.base "any"], some BT.FORBIDDEN, false⟩

/-- The LB3 rule `any ! eot` as parsed. -/
def vr1 : Rule := ⟨.seq [.base "any"], .seq [.base "eot"], some BT.MANDATORY, false⟩

theorem v17rules_parse_ok : (parseRules lineBreakingRulesV17).isOk = true := rfl

theorem v17rules_head : v17rules = vr0 :: vr1 :: v17rules.drop 2 := rfl

/-! ### The default rule list, written out

`v17rulesE` is the parsed form of `lineBreakingRulesV17`, rule by rule;
`v17rules_eq` checks it against the parser output.  The explicit terms
let the per-rule lemmas below avoid re-running the parser.
-/

def vrE0 : Rule := ⟨.seq [.base "sot"], .seq [.base "any"], some 1, false⟩
def vrE1 : Rule := ⟨.seq [.base "any"], .seq [.base "eot"], some 2, false⟩
def vrE2 : Rule := ⟨.seq [.cls "BK"], .seq [.base "any"], some 2, false⟩
def vrE3 : Rule := ⟨.seq [.cls "CR"], .seq [.cls "LF"], some 1, false⟩
def vrE4 : Rule := ⟨.seq [.set [.cls "CR", .cls "LF", .cls "NL"]], .seq [.base "any"], some 2, false⟩
def vrE5 : Rule := ⟨.seq [.base "any"], .seq [.set [.cls "BK", .cls "CR", .cls "LF", .cls "NL"]], some 1, false⟩
def vrE6 : Rule := ⟨.seq [.base "any"], .seq [.set [.cls "SP", .cls "ZW"]], some 1, false⟩
def vrE7 : Rule := ⟨.seq [.modifier "*", .cls "SP", .cls "ZW"], .seq [.base "any"], some 4, false⟩
def vrE8 : Rule := ⟨.seq [.cls "ZWJ"], .seq [.base "any"], some 1, false⟩
def vrE9 : Rule := ⟨.seq [.modifier "^", .set [.base "sot", .cls "BK", .cls "CR", .cls "LF", .cls "NL", .cls "SP", .cls "ZW"]], .seq [.set [.cls "CM", .cls "ZWJ"]], some 1, true⟩
def vrE10 : Rule := ⟨.seq [.base "any"], .seq [.cls "WJ"], some 1, false⟩
def vrE11 : Rule := ⟨.seq [.cls "WJ"], .seq [.base "any"], some 1, false⟩
def vrE12 : Rule := ⟨.seq [.cls "GL"], .seq [.base "any"], some 1, false⟩
def vrE13 : Rule := ⟨.seq [.modifier "^", .set [.cls "SP", .cls "BA", .cls "HY", .cls "HH"]], .seq [.cls "GL"], some 1, false⟩
def vrE14 : Rule := ⟨.seq [.base "any"], .seq [.set [.cls "CL", .cls "CP", .cls "EX", .cls "SY"]], some 1, false⟩
def vrE15 : Rule := ⟨.seq [.modifier "*", .cls "SP", .cls "OP"], .seq [.base "any"], some 1, false⟩
def vrE16 : Rule := ⟨.seq [.modifier "*", .cls "SP", .set [.gc "Pi", .modifier "&", .cls "QU"], .set [.base "sot", .cls "BK", .cls "CR", .cls "LF", .cls "NL", .cls "OP", .cls "QU", .cls "GL", .cls "SP", .cls "ZW"]], .seq [.base "any"], some 1, false⟩
def vrE17 : Rule := ⟨.seq [.base "any"], .seq [.set [.gc "Pf", .modifier "&", .cls "QU"], .set [.cls "SP", .cls "GL", .cls "WJ", .cls "CL", .cls "QU", .cls "CP", .cls "EX", .cls "IS", .cls "SY", .cls "BK", .cls "CR", .cls "LF", .cls "NL", .cls "ZW", .base "eot"]], some 1, false⟩
def vrE18 : Rule := ⟨.seq [.cls "SP"], .seq [.cls "IS", .cls "NU"], some 4, false⟩
def vrE19 : Rule := ⟨.seq [.base "any"], .seq [.cls "IS"], some 1, false⟩
def vrE20 : Rule := ⟨.seq [.modifier "*", .cls "SP", .set [.cls "CL", .cls "CP"]], .seq [.cls "NS"], some 1, false⟩
def vrE21 : Rule := ⟨.seq [.modifier "*", .cls "SP", .cls "B2"], .seq [.cls "B2"], some 1, false⟩
def vrE22 : Rule := ⟨.seq [.cls "SP"], .seq [.base "any"], some 4, false⟩
def vrE23 : Rule := ⟨.seq [.base "any"], .seq [.set [.cls "QU", .modifier "-", .gc "Pi"]], some 1, false⟩
def vrE24 : Rule := ⟨.seq [.set [.cls "QU", .modifier "-", .gc "Pf"]], .seq [.base "any"], some 1, false⟩
def vrE25 : Rule := ⟨.seq [.modifier "^", .eastasian], .seq [.cls "QU"], some 1, false⟩
def vrE26 : Rule := ⟨.seq [.base "any"], .seq [.cls "QU", .set [.modifier "^", .eastasian, .base "eot"]], some 1, false⟩
def vrE27 : Rule := ⟨.seq [.cls "QU"], .seq [.modifier "^", .eastasian], some 1, false⟩
def vrE28 : Rule := ⟨.seq [.cls "QU", .set [.base "sot", .modifier "^", .eastasian]], .seq [.base "any"], some 1, false⟩
def vrE29 : Rule := ⟨.seq [.base "any"], .seq [.cls "CB"], some 4, false⟩
def vrE30 : Rule := ⟨.seq [.cls "CB"], .seq [.base "any"], some 4, false⟩
def vrE31 : Rule := ⟨.seq [.set [.cls "HY", .cls "HH"], .set [.base "sot", .cls "BK", .cls "CR", .cls "LF", .cls "NL", .cls "SP", .cls "ZW", .cls "CB", .cls "GL"]], .seq [.set [.cls "AL", .cls "HL"]], some 1, false⟩
def vrE32 : Rule := ⟨.seq [.base "any"], .seq [.set [.cls "BA", .cls "HH", .cls "HY", .cls "NS"]], some 1, false⟩
def vrE33 : Rule := ⟨.seq [.cls "BB"], .seq [.base "any"], some 1, false⟩
def vrE34 : Rule := ⟨.seq [.set [.cls "HY", .cls "HH"], .cls "HL"], .seq [.modifier "^", .cls "HL"], some 1, false⟩
def vrE35 : Rule := ⟨.seq [.cls "SY"], .seq [.cls "HL"], some 1, false⟩
def vrE36 : Rule := ⟨.seq [.base "any"], .seq [.cls "IN"], some 1, false⟩
def vrE37 : Rule := ⟨.seq [.set [.cls "AL", .cls "HL"]], .seq [.cls "NU"], some 1, false⟩
def vrE38 : Rule := ⟨.seq [.cls "NU"], .seq [.set [.cls "AL", .cls "HL"]], some 1, false⟩
def vrE39 : Rule := ⟨.seq [.cls "PR"], .seq [.set [.cls "ID", .cls "EB", .cls "EM"]], some 1, false⟩
def vrE40 : Rule := ⟨.seq [.set [.cls "ID", .cls "EB", .cls "EM"]], .seq [.cls "PO"], some 1, false⟩
def vrE41 : Rule := ⟨.seq [.set [.cls "PR", .cls "PO"]], .seq [.set [.cls "AL", .cls "HL"]], some 1, false⟩
def vrE42 : Rule := ⟨.seq [.set [.cls "AL", .cls "HL"]], .seq [.set [.cls "PR", .cls "PO"]], some 1, false⟩
def vrE43 : Rule := ⟨.seq [.set [.cls "CL", .cls "CP"], .modifier "*", .set [.cls "SY", .cls "IS"], .cls "NU"], .seq [.set [.cls "PO", .cls "PR"]], some 1, false⟩
def vrE44 : Rule := ⟨.seq [.modifier "*", .set [.cls "SY", .cls "IS"], .cls "NU"], .seq [.set [.cls "PO", .cls "PR", .cls "NU"]], some 1, false⟩
def vrE45 : Rule := ⟨.seq [.set [.cls "PO", .cls "PR"]], .seq [.cls "OP", .cls "NU"], some 1, false⟩
def vrE46 : Rule := ⟨.seq [.set [.cls "PO", .cls "PR"]], .seq [.cls "OP", .cls "IS", .cls "NU"], some 1, false⟩
def vrE47 : Rule := ⟨.seq [.set [.cls "PO", .cls "PR", .cls "HY", .cls "IS"]], .seq [.cls "NU"], some 1, false⟩
def vrE48 : Rule := ⟨.seq [.cls "JL"], .seq [.set [.cls "JL", .cls "JV", .cls "H2", .cls "H3"]], some 1, false⟩
def vrE49 : Rule := ⟨.seq [.set [.cls "JV", .cls "H2"]], .seq [.set [.cls "JV", .cls "JT"]], some 1, false⟩
def vrE50 : Rule := ⟨.seq [.set [.cls "JT", .cls "H3"]], .seq [.cls "JT"], some 1, false⟩
def vrE51 : Rule := ⟨.seq [.set [.cls "JL", .cls "JV", .cls "JT", .cls "H2", .cls "H3"]], .seq [.cls "PO"], some 1, false⟩
def vrE52 : Rule := ⟨.seq [.cls "PR"], .seq [.set [.cls "JL", .cls "JV", .cls "JT", .cls "H2", .cls "H3"]], some 1, false⟩
def vrE53 : Rule := ⟨.seq [.set [.cls "AL", .cls "HL"]], .seq [.set [.cls "AL", .cls "HL"]], some 1, false⟩
def vrE54 : Rule := ⟨.seq [.cls "AP"], .seq [.set [.cls "AK", .codepoint 9676, .cls "AS"]], some 1, false⟩
def vrE55 : Rule := ⟨.seq [.set [.cls "AK", .codepoint 9676, .cls "AS"]], .seq [.set [.cls "VF", .cls "VI"]], some 1, false⟩
def vrE56 : Rule := ⟨.seq [.cls "VI", .set [.cls "AK", .codepoint 9676, .cls "AS"]], .seq [.set [.cls "AK", .codepoint 9676]], some 1, false⟩
def vrE57 : Rule := ⟨.seq [.set [.cls "AK", .codepoint 9676, .cls "AS"]], .seq [.set [.cls "AK", .codepoint 9676, .cls "AS"], .cls "VF"], some 1, false⟩
def vrE58 : Rule := ⟨.seq [.cls "IS"], .seq [.set [.cls "AL", .cls "HL"]], some 1, false⟩
def vrE59 : Rule := ⟨.seq [.set [.cls "AL", .cls "HL", .cls "NU"]], .seq [.set [.cls "OP", .modifier "-", .eastasian]], some 1, false⟩
def vrE60 : Rule := ⟨.seq [.set [.cls "CP", .modifier "-", .eastasian]], .seq [.set [.cls "AL", .cls "HL", .cls "NU"]], some 1, false⟩
def vrE61 : Rule := ⟨.seq [.cls "RI", .modifier "*", .seq [.cls "RI", .cls "RI"], .base "sot"], .seq [.cls "RI"], some 1, false⟩
def vrE62 : Rule := ⟨.seq [.cls "RI", .modifier "*", .seq [.cls "RI", .cls "RI"], .modifier "^", .cls "RI"], .seq [.cls "RI"], some 1, false⟩
def vrE63 : Rule := ⟨.seq [.cls "EB"], .seq [.cls "EM"], some 1, false⟩
def vrE64 : Rule := ⟨.seq [.set [.extpict, .modifier "&", .gc "Cn"]], .seq [.cls "EM"], some 1, false⟩
def vrE65 : Rule := ⟨.seq [.base "any"], .seq [.base "any"], some 4, false⟩

def v17rulesE : List Rule := [vrE0, vrE1, vrE2, vrE3, vrE4, vrE5, vrE6, vrE7, vrE8, vrE9, vrE10, vrE11, vrE12, vrE13, vrE14, vrE15, vrE16, vrE17, vrE18, vrE19, vrE20, vrE21, vrE22, vrE23, vrE24, vrE25, vrE26, vrE27, vrE28, vrE29, vrE30, vrE31, vrE32, vrE33, vrE34, vrE35, vrE36, vrE37, vrE38, vrE39, vrE40, vrE41, vrE42, vrE43, vrE44, vrE45, vrE46, vrE47, vrE48, vrE49, vrE50, vrE51, vrE52, vrE53, vrE54, vrE55, vrE56, vrE57, vrE58, vrE59, vrE60, vrE61, vrE62, vrE63, vrE64, vrE65]

theorem v17rules_eq : v17rules = v17rulesE := rfl

/-! ### Rule evaluation at index NaN

For a position outside `[0, text_length]` the offset lookup yields
`undefined` and the rule index becomes `NaN`; every class, general
category, code point, East-Asian and base check is false at `NaN`, so
the rules up to LB30b all fail (the LB9 rule fires its side effect on
the way), until the `extpict` check of the second LB30b rule reads
`codePoints[NaN]` and `String.fromCodePoint(undefined)` throws a
RangeError.
-/

theorem vrE0_none (f : Nat) (ch : Checker) :
    checkRule (f + 40) ch vrE0 none = .ok (some BT.UNKNOWN, ch) := rfl

theorem vrE1_none (f : Nat) (ch : Checker) :
    checkRule (f + 40) ch vrE1 none = .ok (some BT.UNKNOWN, ch) := rfl

theorem vrE2_none (f : Nat) (ch : Checker) :
    checkRule (f + 40) ch vrE2 none = .ok (some BT.UNKNOWN, ch) := rfl

theorem vrE3_none (f : Nat) (ch : Checker) :
    checkRule (f + 40) ch vrE3 none = .ok (some BT.UNKNOWN, ch) := rfl

theorem vrE4_none (f : Nat) (ch : Checker) :
    checkRule (f + 40) ch vrE4 none = .ok (some BT.UNKNOWN, ch) := rfl

theorem vrE5_none (f : Nat) (ch : Checker) :
    checkRule (f + 40) ch vrE5 none = .ok (some BT.UNKNOWN, ch) := rfl

theorem vrE6_none (f : Nat) (ch : Checker) :
    checkRule (f + 40) ch vrE6 none = .ok (some BT.UNKNOWN, ch) := rfl

theorem vrE7_none (f : Nat) (ch : Checker) :
    checkRule (f + 40) ch vrE7 none = .ok (some BT.UNKNOWN, ch) := rfl

theorem vrE8_none (f : Nat) (ch : Checker) :
    checkRule (f + 40) ch vrE8 none = .ok (some BT.UNKNOWN, ch) := rfl

theorem vrE9_none (f : Nat) (ch : Checker) :
    checkRule (f + 40) ch vrE9 none = .ok (some BT.UNKNOWN, removeCombiningSequences ch) := rfl

theorem vrE10_none (f : Nat) (ch : Checker) :
    checkRule (f + 40) ch vrE10 none = .ok (some BT.UNKNOWN, ch) := rfl

theorem vrE11_none (f : Nat) (ch : Checker) :
    checkRule (f + 40) ch vrE11 none = .ok (some BT.UNKNOWN, ch) := rfl

theorem vrE12_none (f : Nat) (ch : Checker) :
    checkRule (f + 40) ch vrE12 none = .ok (some BT.UNKNOWN, ch) := rfl

theorem vrE13_none (f : Nat) (ch : Checker) :
    checkRule (f + 40) ch vrE13 none = .ok (some BT.UNKNOWN, ch) := rfl

theorem vrE14_none (f : Nat) (ch : Checker) :
    checkRule (f + 40) ch vrE14 none = .ok (some BT.UNKNOWN, ch) := rfl

theorem vrE15_none (f : Nat) (ch : Checker) :
    checkRule (f + 40) ch vrE15 none = .ok (some BT.UNKNOWN, ch) := rfl

theorem vrE16_none (f : Nat) (ch : Checker) :
    checkRule (f + 40) ch vrE16 none = .ok (some BT.UNKNOWN, ch) := rfl

theorem vrE17_none (f : Nat) (ch : Checker) :
    checkRule (f + 40) ch vrE17 none = .ok (some BT.UNKNOWN, ch) := rfl

theorem vrE18_none (f : Nat) (ch : Checker) :
    checkRule (f + 40) ch vrE18 none = .ok (some BT.UNKNOWN, ch) := rfl

theorem vrE19_none (f : Nat) (ch : Checker) :
    checkRule (f + 40) ch vrE19 none = .ok (some BT.UNKNOWN, ch) := rfl

theorem vrE20_none (f : Nat) (ch : Checker) :
    checkRule (f + 40) ch vrE20 none = .ok (some BT.UNKNOWN, ch) := rfl

theorem vrE21_none (f : Nat) (ch : Checker) :
    checkRule (f + 40) ch vrE21 none = .ok (some BT.UNKNOWN, ch) := rfl

theorem vrE22_none (f : Nat) (ch : Checker) :
    checkRule (f + 40) ch vrE22 none = .ok (some BT.UNKNOWN, ch) := rfl

theorem vrE23_none (f : Nat) (ch : Checker) :
    checkRule (f + 40) ch vrE23 none = .ok (some BT.UNKNOWN, ch) := rfl

theorem vrE24_none (f : Nat) (ch : Checker) :
    checkRule (f + 40) ch vrE24 none = .ok (some BT.UNKNOWN, ch) := rfl

theorem vrE25_none (f : Nat) (ch : Checker) :
    checkRule (f + 40) ch vrE25 none = .ok (some BT.UNKNOWN, ch) := rfl

theorem vrE26_none (f : Nat) (ch : Checker) :
    checkRule (f + 40) ch vrE26 none = .ok (some BT.UNKNOWN, ch) := rfl

theorem vrE27_none (f : Nat) (ch : Checker) :
    checkRule (f + 40) ch vrE27 none = .ok (some BT.UNKNOWN, ch) := rfl

theorem vrE28_none (f : Nat) (ch : Checker) :
    checkRule (f + 40) ch vrE28 none = .ok (some BT.UNKNOWN, ch) := rfl

theorem vrE29_none (f : Nat) (ch : Checker) :
    checkRule (f + 40) ch vrE29 none = .ok (some BT.UNKNOWN, ch) := rfl

theorem vrE30_none (f : Nat) (ch : Checker) :
    checkRule (f + 40) ch vrE30 none = .ok (some BT.UNKNOWN, ch) := rfl

theorem vrE31_none (f : Nat) (ch : Checker) :
    checkRule (f + 40) ch vrE31 none = .ok (some BT.UNKNOWN, ch) := rfl

theorem vrE32_none (f : Nat) (ch : Checker) :
    checkRule (f + 40) ch vrE32 none = .ok (some BT.UNKNOWN, ch) := rfl

theorem vrE33_none (f : Nat) (ch : Checker) :
    checkRule (f + 40) ch vrE33 none = .ok (some BT.UNKNOWN, ch) := rfl

theorem vrE34_none (f : Nat) (ch : Checker) :
    checkRule (f + 40) ch vrE34 none = .ok (some BT.UNKNOWN, ch) := rfl

theorem vrE35_none (f : Nat) (ch : Checker) :
    checkRule (f + 40) ch vrE35 none = .ok (some BT.UNKNOWN, ch) := rfl

theorem vrE36_none (f : Nat) (ch : Checker) :
    checkRule (f + 40) ch vrE36 none = .ok (some BT.UNKNOWN, ch) := rfl

theorem vrE37_none (f : Nat) (ch : Checker) :
    checkRule (f + 40) ch vrE37 none = .ok (some BT.UNKNOWN, ch) := rfl

theorem vrE38_none (f : Nat) (ch : Checker) :
    checkRule (f + 40) ch vrE38 none = .ok (some BT.UNKNOWN, ch) := rfl

theorem vrE39_none (f : Nat) (ch : Checker) :
    checkRule (f + 40) ch vrE39 none = .ok (some BT.UNKNOWN, ch) := rfl

theorem vrE40_none (f : Nat) (ch : Checker) :
    checkRule (f + 40) ch vrE40 none = .ok (some BT.UNKNOWN, ch) := rfl

theorem vrE41_none (f : Nat) (ch : Checker) :
    checkRule (f + 40) ch vrE41 none = .ok (some BT.UNKNOWN, ch) := rfl

theorem vrE42_none (f : Nat) (ch : Checker) :
    checkRule (f + 40) ch vrE42 none = .ok (some BT.UNKNOWN, ch) := rfl

theorem vrE43_none (f : Nat) (ch : Checker) :
    checkRule (f + 40) ch vrE43 none = .ok (some BT.UNKNOWN, ch) := rfl

theorem vrE44_none (f : Nat) (ch : Checker) :
    checkRule (f + 40) ch vrE44 none = .ok (some BT.UNKNOWN, ch) := rfl

theorem vrE45_none (f : Nat) (ch : Checker) :
    checkRule (f + 40) ch vrE45 none = .ok (some BT.UNKNOWN, ch) := rfl

theorem vrE46_none (f : Nat) (ch : Checker) :
    checkRule (f + 40) ch vrE46 none = .ok (some BT.UNKNOWN, ch) := rfl

theorem vrE47_none (f : Nat) (ch : Checker) :
    checkRule (f + 40) ch vrE47 none = .ok (some BT.UNKNOWN, ch) := rfl

theorem vrE48_none (f : Nat) (ch : Checker) :
    checkRule (f + 40) ch vrE48 none = .ok (some BT.UNKNOWN, ch) := rfl

theorem vrE49_none (f : Nat) (ch : Checker) :
    checkRule (f + 40) ch vrE49 none = .ok (some BT.UNKNOWN, ch) := rfl

theorem vrE50_none (f : Nat) (ch : Checker) :
    checkRule (f + 40) ch vrE50 none = .ok (some BT.UNKNOWN, ch) := rfl

theorem vrE51_none (f : Nat) (ch : Checker) :
    checkRule (f + 40) ch vrE51 none = .ok (some BT.UNKNOWN, ch) := rfl

theorem vrE52_none (f : Nat) (ch : Checker) :
    checkRule (f + 40) ch vrE52 none = .ok (some BT.UNKNOWN, ch) := rfl

theorem vrE53_none (f : Nat) (ch : Checker) :
    checkRule (f + 40) ch vrE53 none = .ok (some BT.UNKNOWN, ch) := rfl

theorem vrE54_none (f : Nat) (ch : Checker) :
    checkRule (f + 40) ch vrE54 none = .ok (some BT.UNKNOWN, ch) := rfl

theorem vrE55_none (f : Nat) (ch : Checker) :
    checkRule (f + 40) ch vrE55 none = .ok (some BT.UNKNOWN, ch) := rfl

theorem vrE56_none (f : Nat) (ch : Checker) :
    checkRule (f + 40) ch vrE56 none = .ok (some BT.UNKNOWN, ch) := rfl

theorem vrE57_none (f : Nat) (ch : Checker) :
    checkRule (f + 40) ch vrE57 none = .ok (some BT.UNKNOWN, ch) := rfl

theorem vrE58_none (f : Nat) (ch : Checker) :
    checkRule (f + 40) ch vrE58 none = .ok (some BT.UNKNOWN, ch) := rfl

theorem vrE59_none (f : Nat) (ch : Checker) :
    checkRule (f + 40) ch vrE59 none = .ok (some BT.UNKNOWN, ch) := rfl

theorem vrE60_none (f : Nat) (ch : Checker) :
    checkRule (f + 40) ch vrE60 none = .ok (some BT.UNKNOWN, ch) := rfl

theorem vrE61_none (f : Nat) (ch : Checker) :
    checkRule (f + 40) ch vrE61 none = .ok (some BT.UNKNOWN, ch) := rfl

theorem vrE62_none (f : Nat) (ch : Checker) :
    checkRule (f + 40) ch vrE62 none = .ok (some BT.UNKNOWN, ch) := rfl

theorem vrE63_none (f : Nat) (ch : Checker) :
    checkRule (f + 40) ch vrE63 none = .ok (some BT.UNKNOWN, ch) := rfl

theorem vrE64_none (f : Nat) (ch : Checker) :
    checkRule (f + 40) ch vrE64 none = .error "RangeError" := rfl


/-! ### Claim C3: positions outside the valid range make the call fail -/

theorem setCodePointsAux_offs_length :
    ∀ (us : List Nat) (b : Bool) (off : Nat),
      (setCodePointsAux us b off).2.length = us.length + 1 := by
  intro us
  induction us with
  | nil => intro b off; rfl
  | cons u rest ih => intro b off; simp [setCodePointsAux, ih]

theorem setText_offsetsSurrogates (ch : Checker) (text : List Nat) :
    (setText ch text).offsetsSurrogates = (setCodePoints text).2 := rfl

theorem setText_rules (ch : Checker) (text : List Nat) :
    (setText ch text).rules = ch.rules := rfl

theorem ruleIndex_none (ch : Checker) (i : Int)
    (h : jgetI ch.offsetsSurrogates i = none) : ruleIndex ch i = none := by
  simp only [ruleIndex, h]
  rfl

theorem checkRules_cons_unknown (f : Nat) (r : Rule) (rest : List Rule)
    (ch ch2 : Checker) (i : Int)
    (h : checkRule f ch r (ruleIndex ch i) = .ok (some BT.UNKNOWN, ch2)) :
    checkRules f (r :: rest) ch i = checkRules f rest ch2 i := by
  simp only [checkRules]
  rw [h]
  simp

theorem checkRules_cons_error (f : Nat) (r : Rule) (rest : List Rule)
    (ch : Checker) (i : Int) (e : String)
    (h : checkRule f ch r (ruleIndex ch i) = .error e) :
    checkRules f (r :: rest) ch i = .error e := by
  simp only [checkRules]
  rw [h]

theorem jgetI_offs_out (text : List Nat) (i : Int)
    (hout : i < 0 ∨ (text.length : Int) < i) :
    jgetI (setCodePoints text).2 i = none := by
  unfold jgetI
  rcases hout with h | h
  · rw [if_pos h]
  · rw [if_neg (by omega)]
    apply List.get?_eq_none.2
    have hl := setCodePointsAux_offs_length text false 0
    unfold setCodePoints
    rw [hl]
    omega

/-- Claim C3: a call to isPosLineBreaking with a position outside
`[0, text_length]` fails with an invalid-argument error (a RangeError)
instead of returning a verdict: the surrogate-offset lookup yields
`undefined`, the rule index becomes `NaN`, every rule up to LB30b fails
at `NaN`, and the Extended_Pictographic check of the second LB30b rule
throws the RangeError of `String.fromCodePoint(undefined)`. -/
theorem C3_out_of_range_error (env : Env)
    (crit : Option (Option String → String → Option String))
    (text : List Nat) (i : Int)
    (hout : i < 0 ∨ (text.length : Int) < i) :
    isPosLineBreaking (setText (mkChecker env crit v17rules) text) i =
      .error "RangeError" := by
  set ch0 := setText (mkChecker env crit v17rules) text with hch
  have hOS : jgetI ch0.offsetsSurrogates i = none := by
    rw [hch, setText_offsetsSurrogates]
    exact jgetI_offs_out text i hout
  have hOS2 : jgetI (removeCombiningSequences ch0).offsetsSurrogates i = none := hOS
  have htext : ch0.text = text := by rw [hch]; rfl
  have hguard : ¬(0 < i ∧ i < (ch0.text.length : Int) ∧
      isSurrogatePair (ch0.text.getD (i - 1).toNat 0) (ch0.text.getD i.toNat 0)) := by
    rw [htext]
    rintro ⟨h1, h2, _⟩
    rcases hout with h | h <;> omega
  have hrules : ch0.rules = v17rulesE := by
    rw [hch, setText_rules]
    exact v17rules_eq
  obtain ⟨m, hm⟩ : ∃ m, consumeFuel ch0 = m + 40 :=
    ⟨consumeFuel ch0 - 40, by unfold consumeFuel; omega⟩
  unfold isPosLineBreaking
  rw [if_neg hguard, hm, hrules]
  simp only [v17rulesE]
  have s0 : checkRule (m + 40) ch0 vrE0 (ruleIndex ch0 i) =
      .ok (some BT.UNKNOWN, ch0) := by
    rw [ruleIndex_none _ _ hOS]
    exact vrE0_none m _
  rw [checkRules_cons_unknown _ _ _ _ _ _ s0]
  have s1 : checkRule (m + 40) ch0 vrE1 (ruleIndex ch0 i) =
      .ok (some BT.UNKNOWN, ch0) := by
    rw [ruleIndex_none _ _ hOS]
    exact vrE1_none m _
  rw [checkRules_cons_unknown _ _ _ _ _ _ s1]
  have s2 : checkRule (m + 40) ch0 vrE2 (ruleIndex ch0 i) =
      .ok (some BT.UNKNOWN, ch0) := by
    rw [ruleIndex_none _ _ hOS]
    exact vrE2_none m _
  rw [checkRules_cons_unknown _ _ _ _ _ _ s2]
  have s3 : checkRule (m + 40) ch0 vrE3 (ruleIndex ch0 i) =
      .ok (some BT.UNKNOWN, ch0) := by
    rw [ruleIndex_none _ _ hOS]
    exact vrE3_none m _
  rw [checkRules_cons_unknown _ _ _ _ _ _ s3]
  have s4 : checkRule (m + 40) ch0 vrE4 (ruleIndex ch0 i) =
      .ok (some BT.UNKNOWN, ch0) := by
    rw [ruleIndex_none _ _ hOS]
    exact vrE4_none m _
  rw [checkRules_cons_unknown _ _ _ _ _ _ s4]
  have s5 : checkRule (m + 40) ch0 vrE5 (ruleIndex ch0 i) =
      .ok (some BT.UNKNOWN, ch0) := by
    rw [ruleIndex_none _ _ hOS]
    exact vrE5_none m _
  rw [checkRules_cons_unknown _ _ _ _ _ _ s5]
  have s6 : checkRule (m + 40) ch0 vrE6 (ruleIndex ch0 i) =
      .ok (some BT.UNKNOWN, ch0) := by
    rw [ruleIndex_none _ _ hOS]
    exact vrE6_none m _
  rw [checkRules_cons_unknown _ _ _ _ _ _ s6]
  have s7 : checkRule (m + 40) ch0 vrE7 (ruleIndex ch0 i) =
      .ok (some BT.UNKNOWN, ch0) := by
    rw [ruleIndex_none _ _ hOS]
    exact vrE7_none m _
  rw [checkRules_cons_unknown _ _ _ _ _ _ s7]
  have s8 : checkRule (m + 40) ch0 vrE8 (ruleIndex ch0 i) =
      .ok (some BT.UNKNOWN, ch0) := by
    rw [ruleIndex_none _ _ hOS]
    exact vrE8_none m _
  rw [checkRules_cons_unknown _ _ _ _ _ _ s8]
  have s9 : checkRule (m + 40) ch0 vrE9 (ruleIndex ch0 i) =
      .ok (some BT.UNKNOWN, (removeCombiningSequences ch0)) := by
    rw [ruleIndex_none _ _ hOS]
    exact vrE9_none m _
  rw [checkRules_cons_unknown _ _ _ _ _ _ s9]
  have s10 : checkRule (m + 40) (removeCombiningSequences ch0) vrE10 (ruleIndex (removeCombiningSequences ch0) i) =
      .ok (some BT.UNKNOWN, (removeCombiningSequences ch0)) := by
    rw [ruleIndex_none _ _ hOS2]
    exact vrE10_none m _
  rw [checkRules_cons_unknown _ _ _ _ _ _ s10]
  have s11 : checkRule (m + 40) (removeCombiningSequences ch0) vrE11 (ruleIndex (removeCombiningSequences ch0) i) =
      .ok (some BT.UNKNOWN, (removeCombiningSequences ch0)) := by
    rw [ruleIndex_none _ _ hOS2]
    exact vrE11_none m _
  rw [checkRules_cons_unknown _ _ _ _ _ _ s11]
  have s12 : checkRule (m + 40) (removeCombiningSequences ch0) vrE12 (ruleIndex (removeCombiningSequences ch0) i) =
      .ok (some BT.UNKNOWN, (removeCombiningSequences ch0)) := by
    rw [ruleIndex_none _ _ hOS2]
    exact vrE12_none m _
  rw [checkRules_cons_unknown _ _ _ _ _ _ s12]
  have s13 : checkRule (m + 40) (removeCombiningSequences ch0) vrE13 (ruleIndex (removeCombiningSequences ch0) i) =
      .ok (some BT.UNKNOWN, (removeCombiningSequences ch0)) := by
    rw [ruleIndex_none _ _ hOS2]
    exact vrE13_none m _
  rw [checkRules_cons_unknown _ _ _ _ _ _ s13]
  have s14 : checkRule (m + 40) (removeCombiningSequences ch0) vrE14 (ruleIndex (removeCombiningSequences ch0) i) =
      .ok (some BT.UNKNOWN, (removeCombiningSequences ch0)) := by
    rw [ruleIndex_none _ _ hOS2]
    exact vrE14_none m _
  rw [checkRules_cons_unknown _ _ _ _ _ _ s14]
  have s15 : checkRule (m + 40) (removeCombiningSequences ch0) vrE15 (ruleIndex (removeCombiningSequences ch0) i) =
      .ok (some BT.UNKNOWN, (removeCombiningSequences ch0)) := by
    rw [ruleIndex_none _ _ hOS2]
    exact vrE15_none m _
  rw [checkRules_cons_unknown _ _ _ _ _ _ s15]
  have s16 : checkRule (m + 40) (removeCombiningSequences ch0) vrE16 (ruleIndex (removeCombiningSequences ch0) i) =
      .ok (some BT.UNKNOWN, (removeCombiningSequences ch0)) := by
    rw [ruleIndex_none _ _ hOS2]
    exact vrE16_none m _
  rw [checkRules_cons_unknown _ _ _ _ _ _ s16]
  have s17 : checkRule (m + 40) (removeCombiningSequences ch0) vrE17 (ruleIndex (removeCombiningSequences ch0) i) =
      .ok (some BT.UNKNOWN, (removeCombiningSequences ch0)) := by
    rw [ruleIndex_none _ _ hOS2]
    exact vrE17_none m _
  rw [checkRules_cons_unknown _ _ _ _ _ _ s17]
  have s18 : checkRule (m + 40) (removeCombiningSequences ch0) vrE18 (ruleIndex (removeCombiningSequences ch0) i) =
      .ok (some BT.UNKNOWN, (removeCombiningSequences ch0)) := by
    rw [ruleIndex_none _ _ hOS2]
    exact vrE18_none m _
  rw [checkRules_cons_unknown _ _ _ _ _ _ s18]
  have s19 : checkRule (m + 40) (removeCombiningSequences ch0) vrE19 (ruleIndex (removeCombiningSequences ch0) i) =
      .ok (some BT.UNKNOWN, (removeCombiningSequences ch0)) := by
    rw [ruleIndex_none _ _ hOS2]
    exact vrE19_none m _
  rw [checkRules_cons_unknown _ _ _ _ _ _ s19]
  have s20 : checkRule (m + 40) (removeCombiningSequences ch0) vrE20 (ruleIndex (removeCombiningSequences ch0) i) =
      .ok (some BT.UNKNOWN, (removeCombiningSequences ch0)) := by
    rw [ruleIndex_none _ _ hOS2]
    exact vrE20_none m _
  rw [checkRules_cons_unknown _ _ _ _ _ _ s20]
  have s21 : checkRule (m + 40) (removeCombiningSequences ch0) vrE21 (ruleIndex (removeCombiningSequences ch0) i) =
      .ok (some BT.UNKNOWN, (removeCombiningSequences ch0)) := by
    rw [ruleIndex_none _ _ hOS2]
    exact vrE21_none m _
  rw [checkRules_cons_unknown _ _ _ _ _ _ s21]
  have s22 : checkRule (m + 40) (removeCombiningSequences ch0) vrE22 (ruleIndex (removeCombiningSequences ch0) i) =
      .ok (some BT.UNKNOWN, (removeCombiningSequences ch0)) := by
    rw [ruleIndex_none _ _ hOS2]
    exact vrE22_none m _
  rw [checkRules_cons_unknown _ _ _ _ _ _ s22]
  have s23 : checkRule (m + 40) (removeCombiningSequences ch0) vrE23 (ruleIndex (removeCombiningSequences ch0) i) =
      .ok (some BT.UNKNOWN, (removeCombiningSequences ch0)) := by
    rw [ruleIndex_none _ _ hOS2]
    exact vrE23_none m _
  rw [checkRules_cons_unknown _ _ _ _ _ _ s23]
  have s24 : checkRule (m + 40) (removeCombiningSequences ch0) vrE24 (ruleIndex (removeCombiningSequences ch0) i) =
      .ok (some BT.UNKNOWN, (removeCombiningSequences ch0)) := by
    rw [ruleIndex_none _ _ hOS2]
    exact vrE24_none m _
  rw [checkRules_cons_unknown _ _ _ _ _ _ s24]
  have s25 : checkRule (m + 40) (removeCombiningSequences ch0) vrE25 (ruleIndex (removeCombiningSequences ch0) i) =
      .ok (some BT.UNKNOWN, (removeCombiningSequences ch0)) := by
    rw [ruleIndex_none _ _ hOS2]
    exact vrE25_none m _
  rw [checkRules_cons_unknown _ _ _ _ _ _ s25]
  have s26 : checkRule (m + 40) (removeCombiningSequences ch0) vrE26 (ruleIndex (removeCombiningSequences ch0) i) =
      .ok (some BT.UNKNOWN, (removeCombiningSequences ch0)) := by
    rw [ruleIndex_none _ _ hOS2]
    exact vrE26_none m _
  rw [checkRules_cons_unknown _ _ _ _ _ _ s26]
  have s27 : checkRule (m + 40) (removeCombiningSequences ch0) vrE27 (ruleIndex (removeCombiningSequences ch0) i) =
      .ok (some BT.UNKNOWN, (removeCombiningSequences ch0)) := by
    rw [ruleIndex_none _ _ hOS2]
    exact vrE27_none m _
  rw [checkRules_cons_unknown _ _ _ _ _ _ s27]
  have s28 : checkRule (m + 40) (removeCombiningSequences ch0) vrE28 (ruleIndex (removeCombiningSequences ch0) i) =
      .ok (some BT.UNKNOWN, (removeCombiningSequences ch0)) := by
    rw [ruleIndex_none _ _ hOS2]
    exact vrE28_none m _
  rw [checkRules_cons_unknown _ _ _ _ _ _ s28]
  have s29 : checkRule (m + 40) (removeCombiningSequences ch0) vrE29 (ruleIndex (removeCombiningSequences ch0) i) =
      .ok (some BT.UNKNOWN, (removeCombiningSequences ch0)) := by
    rw [ruleIndex_none _ _ hOS2]
    exact vrE29_none m _
  rw [checkRules_cons_unknown _ _ _ _ _ _ s29]
  have s30 : checkRule (m + 40) (removeCombiningSequences ch0) vrE30 (ruleIndex (removeCombiningSequences ch0) i) =
      .ok (some BT.UNKNOWN, (removeCombiningSequences ch0)) := by
    rw [ruleIndex_none _ _ hOS2]
    exact vrE30_none m _
  rw [checkRules_cons_unknown _ _ _ _ _ _ s30]
  have s31 : checkRule (m + 40) (removeCombiningSequences ch0) vrE31 (ruleIndex (removeCombiningSequences ch0) i) =
      .ok (some BT.UNKNOWN, (removeCombiningSequences ch0)) := by
    rw [ruleIndex_none _ _ hOS2]
    exact vrE31_none m _
  rw [checkRules_cons_unknown _ _ _ _ _ _ s31]
  have s32 : checkRule (m + 40) (removeCombiningSequences ch0) vrE32 (ruleIndex (removeCombiningSequences ch0) i) =
      .ok (some BT.UNKNOWN, (removeCombiningSequences ch0)) := by
    rw [ruleIndex_none _ _ hOS2]
    exact vrE32_none m _
  rw [checkRules_cons_unknown _ _ _ _ _ _ s32]
  have s33 : checkRule (m + 40) (removeCombiningSequences ch0) vrE33 (ruleIndex (removeCombiningSequences ch0) i) =
      .ok (some BT.UNKNOWN, (removeCombiningSequences ch0)) := by
    rw [ruleIndex_none _ _ hOS2]
    exact vrE33_none m _
  rw [checkRules_cons_unknown _ _ _ _ _ _ s33]
  have s34 : checkRule (m + 40) (removeCombiningSequences ch0) vrE34 (ruleIndex (removeCombiningSequences ch0) i) =
      .ok (some BT.UNKNOWN, (removeCombiningSequences ch0)) := by
    rw [ruleIndex_none _ _ hOS2]
    exact vrE34_none m _
  rw [checkRules_cons_unknown _ _ _ _ _ _ s34]
  have s35 : checkRule (m + 40) (removeCombiningSequences ch0) vrE35 (ruleIndex (removeCombiningSequences ch0) i) =
      .ok (some BT.UNKNOWN, (removeCombiningSequences ch0)) := by
    rw [ruleIndex_none _ _ hOS2]
    exact vrE35_none m _
  rw [checkRules_cons_unknown _ _ _ _ _ _ s35]
  have s36 : checkRule (m + 40) (removeCombiningSequences ch0) vrE36 (ruleIndex (removeCombiningSequences ch0) i) =
      .ok (some BT.UNKNOWN, (removeCombiningSequences ch0)) := by
    rw [ruleIndex_none _ _ hOS2]
    exact vrE36_none m _
  rw [checkRules_cons_unknown _ _ _ _ _ _ s36]
  have s37 : checkRule (m + 40) (removeCombiningSequences ch0) vrE37 (ruleIndex (removeCombiningSequences ch0) i) =
      .ok (some BT.UNKNOWN, (removeCombiningSequences ch0)) := by
    rw [ruleIndex_none _ _ hOS2]
    exact vrE37_none m _
  rw [checkRules_cons_unknown _ _ _ _ _ _ s37]
  have s38 : checkRule (m + 40) (removeCombiningSequences ch0) vrE38 (ruleIndex (removeCombiningSequences ch0) i) =
      .ok (some BT.UNKNOWN, (removeCombiningSequences ch0)) := by
    rw [ruleIndex_none _ _ hOS2]
    exact vrE38_none m _
  rw [checkRules_cons_unknown _ _ _ _ _ _ s38]
  have s39 : checkRule (m + 40) (removeCombiningSequences ch0) vrE39 (ruleIndex (removeCombiningSequences ch0) i) =
      .ok (some BT.UNKNOWN, (removeCombiningSequences ch0)) := by
    rw [ruleIndex_none _ _ hOS2]
    exact vrE39_none m _
  rw [checkRules_cons_unknown _ _ _ _ _ _ s39]
  have s40 : checkRule (m + 40) (removeCombiningSequences ch0) vrE40 (ruleIndex (removeCombiningSequences ch0) i) =
      .ok (some BT.UNKNOWN, (removeCombiningSequences ch0)) := by
    rw [ruleIndex_none _ _ hOS2]
    exact vrE40_none m _
  rw [checkRules_cons_unknown _ _ _ _ _ _ s40]
  have s41 : checkRule (m + 40) (removeCombiningSequences ch0) vrE41 (ruleIndex (removeCombiningSequences ch0) i) =
      .ok (some BT.UNKNOWN, (removeCombiningSequences ch0)) := by
    rw [ruleIndex_none _ _ hOS2]
    exact vrE41_none m _
  rw [checkRules_cons_unknown _ _ _ _ _ _ s41]
  have s42 : checkRule (m + 40) (removeCombiningSequences ch0) vrE42 (ruleIndex (removeCombiningSequences ch0) i) =
      .ok (some BT.UNKNOWN, (removeCombiningSequences ch0)) := by
    rw [ruleIndex_none _ _ hOS2]
    exact vrE42_none m _
  rw [checkRules_cons_unknown _ _ _ _ _ _ s42]
  have s43 : checkRule (m + 40) (removeCombiningSequences ch0) vrE43 (ruleIndex (removeCombiningSequences ch0) i) =
      .ok (some BT.UNKNOWN, (removeCombiningSequences ch0)) := by
    rw [ruleIndex_none _ _ hOS2]
    exact vrE43_none m _
  rw [checkRules_cons_unknown _ _ _ _ _ _ s43]
  have s44 : checkRule (m + 40) (removeCombiningSequences ch0) vrE44 (ruleIndex (removeCombiningSequences ch0) i) =
      .ok (some BT.UNKNOWN, (removeCombiningSequences ch0)) := by
    rw [ruleIndex_none _ _ hOS2]
    exact vrE44_none m _
  rw [checkRules_cons_unknown _ _ _ _ _ _ s44]
  have s45 : checkRule (m + 40) (removeCombiningSequences ch0) vrE45 (ruleIndex (removeCombiningSequences ch0) i) =
      .ok (some BT.UNKNOWN, (removeCombiningSequences ch0)) := by
    rw [ruleIndex_none _ _ hOS2]
    exact vrE45_none m _
  rw [checkRules_cons_unknown _ _ _ _ _ _ s45]
  have s46 : checkRule (m + 40) (removeCombiningSequences ch0) vrE46 (ruleIndex (removeCombiningSequences ch0) i) =
      .ok (some BT.UNKNOWN, (removeCombiningSequences ch0)) := by
    rw [ruleIndex_none _ _ hOS2]
    exact vrE46_none m _
  rw [checkRules_cons_unknown _ _ _ _ _ _ s46]
  have s47 : checkRule (m + 40) (removeCombiningSequences ch0) vrE47 (ruleIndex (removeCombiningSequences ch0) i) =
      .ok (some BT.UNKNOWN, (removeCombiningSequences ch0)) := by
    rw [ruleIndex_none _ _ hOS2]
    exact vrE47_none m _
  rw [checkRules_cons_unknown _ _ _ _ _ _ s47]
  have s48 : checkRule (m + 40) (removeCombiningSequences ch0) vrE48 (ruleIndex (removeCombiningSequences ch0) i) =
      .ok (some BT.UNKNOWN, (removeCombiningSequences ch0)) := by
    rw [ruleIndex_none _ _ hOS2]
    exact vrE48_none m _
  rw [checkRules_cons_unknown _ _ _ _ _ _ s48]
  have s49 : checkRule (m + 40) (removeCombiningSequences ch0) vrE49 (ruleIndex (removeCombiningSequences ch0) i) =
      .ok (some BT.UNKNOWN, (removeCombiningSequences ch0)) := by
    rw [ruleIndex_none _ _ hOS2]
    exact vrE49_none m _
  rw [checkRules_cons_unknown _ _ _ _ _ _ s49]
  have s50 : checkRule (m + 40) (removeCombiningSequences ch0) vrE50 (ruleIndex (removeCombiningSequences ch0) i) =
      .ok (some BT.UNKNOWN, (removeCombiningSequences ch0)) := by
    rw [ruleIndex_none _ _ hOS2]
    exact vrE50_none m _
  rw [checkRules_cons_unknown _ _ _ _ _ _ s50]
  have s51 : checkRule (m + 40) (removeCombiningSequences ch0) vrE51 (ruleIndex (removeCombiningSequences ch0) i) =
      .ok (some BT.UNKNOWN, (removeCombiningSequences ch0)) := by
    rw [ruleIndex_none _ _ hOS2]
    exact vrE51_none m _
  rw [checkRules_cons_unknown _ _ _ _ _ _ s51]
  have s52 : checkRule (m + 40) (removeCombiningSequences ch0) vrE52 (ruleIndex (removeCombiningSequences ch0) i) =
      .ok (some BT.UNKNOWN, (removeCombiningSequences ch0)) := by
    rw [ruleIndex_none _ _ hOS2]
    exact vrE52_none m _
  rw [checkRules_cons_unknown _ _ _ _ _ _ s52]
  have s53 : checkRule (m + 40) (removeCombiningSequences ch0) vrE53 (ruleIndex (removeCombiningSequences ch0) i) =
      .ok (some BT.UNKNOWN, (removeCombiningSequences ch0)) := by
    rw [ruleIndex_none _ _ hOS2]
    exact vrE53_none m _
  rw [checkRules_cons_unknown _ _ _ _ _ _ s53]
  have s54 : checkRule (m + 40) (removeCombiningSequences ch0) vrE54 (ruleIndex (removeCombiningSequences ch0) i) =
      .ok (some BT.UNKNOWN, (removeCombiningSequences ch0)) := by
    rw [ruleIndex_none _ _ hOS2]
    exact vrE54_none m _
  rw [checkRules_cons_unknown _ _ _ _ _ _ s54]
  have s55 : checkRule (m + 40) (removeCombiningSequences ch0) vrE55 (ruleIndex (removeCombiningSequences ch0) i) =
      .ok (some BT.UNKNOWN, (removeCombiningSequences ch0)) := by
    rw [ruleIndex_none _ _ hOS2]
    exact vrE55_none m _
  rw [checkRules_cons_unknown _ _ _ _ _ _ s55]
  have s56 : checkRule (m + 40) (removeCombiningSequences ch0) vrE56 (ruleIndex (removeCombiningSequences ch0) i) =
      .ok (some BT.UNKNOWN, (removeCombiningSequences ch0)) := by
    rw [ruleIndex_none _ _ hOS2]
    exact vrE56_none m _
  rw [checkRules_cons_unknown _ _ _ _ _ _ s56]
  have s57 : checkRule (m + 40) (removeCombiningSequences ch0) vrE57 (ruleIndex (removeCombiningSequences ch0) i) =
      .ok (some BT.UNKNOWN, (removeCombiningSequences ch0)) := by
    rw [ruleIndex_none _ _ hOS2]
    exact vrE57_none m _
  rw [checkRules_cons_unknown _ _ _ _ _ _ s57]
  have s58 : checkRule (m + 40) (removeCombiningSequences ch0) vrE58 (ruleIndex (removeCombiningSequences ch0) i) =
      .ok (some BT.UNKNOWN, (removeCombiningSequences ch0)) := by
    rw [ruleIndex_none _ _ hOS2]
    exact vrE58_none m _
  rw [checkRules_cons_unknown _ _ _ _ _ _ s58]
  have s59 : checkRule (m + 40) (removeCombiningSequences ch0) vrE59 (ruleIndex (removeCombiningSequences ch0) i) =
      .ok (some BT.UNKNOWN, (removeCombiningSequences ch0)) := by
    rw [ruleIndex_none _ _ hOS2]
    exact vrE59_none m _
  rw [checkRules_cons_unknown _ _ _ _ _ _ s59]
  have s60 : checkRule (m + 40) (removeCombiningSequences ch0) vrE60 (ruleIndex (removeCombiningSequences ch0) i) =
      .ok (some BT.UNKNOWN, (removeCombiningSequences ch0)) := by
    rw [ruleIndex_none _ _ hOS2]
    exact vrE60_none m _
  rw [checkRules_cons_unknown _ _ _ _ _ _ s60]
  have s61 : checkRule (m + 40) (removeCombiningSequences ch0) vrE61 (ruleIndex (removeCombiningSequences ch0) i) =
      .ok (some BT.UNKNOWN, (removeCombiningSequences ch0)) := by
    rw [ruleIndex_none _ _ hOS2]
    exact vrE61_none m _
  rw [checkRules_cons_unknown _ _ _ _ _ _ s61]
  have s62 : checkRule (m + 40) (removeCombiningSequences ch0) vrE62 (ruleIndex (removeCombiningSequences ch0) i) =
      .ok (some BT.UNKNOWN, (removeCombiningSequences ch0)) := by
    rw [ruleIndex_none _ _ hOS2]
    exact vrE62_none m _
  rw [checkRules_cons_unknown _ _ _ _ _ _ s62]
  have s63 : checkRule (m + 40) (removeCombiningSequences ch0) vrE63 (ruleIndex (removeCombiningSequences ch0) i) =
      .ok (some BT.UNKNOWN, (removeCombiningSequences ch0)) := by
    rw [ruleIndex_none _ _ hOS2]
    exact vrE63_none m _
  rw [checkRules_cons_unknown _ _ _ _ _ _ s63]
  have s64 : checkRule (m + 40) (removeCombiningSequences ch0) vrE64
      (ruleIndex (removeCombiningSequences ch0) i) = .error "RangeError" := by
    rw [ruleIndex_none _ _ hOS2]
    exact vrE64_none m _
  rw [checkRules_cons_error _ _ _ _ _ _ s64]



/-! ### Concrete environments and inputs used by witnesses -/

/-- An environment whose class table is empty. -/
def noEnv : Env := ⟨fun _ => none, fun _ => false, fun _ => false⟩

/-- The class table entries needed for the README text. -/
def helloEnv : Env :=
  ⟨fun cp =>
    if cp = 72 then some ("AL", "Lu")
    else if cp = 44 then some ("IS", "Po")
    else if cp = 32 then some ("SP", "Zs")
    else if cp = 101 ∨ cp = 108 ∨ cp = 111 ∨ cp = 98 ∨ cp = 114 ∨ cp = 97 ∨ cp = 107 then
      some ("AL", "Ll")
    else none,
   fun _ => false, fun _ => false⟩

/-- The UTF-16 code units of "Hello, breaker". -/
def helloUnits : List Nat := [72, 101, 108, 108, 111, 44, 32, 98, 114, 101, 97, 107, 101, 114]

def chHello : Checker := setText (mkChecker helloEnv none v17rules) helloUnits

/-! ### Claim C1 (code bug at the record shape) -/

/-- Claim C1, behaviour of the code at the failing input: on the README
text "Hello, breaker" the iterator yields exactly two records,
`{ index: 7, breakType: ALLOWED }` and `{ index: 14, breakType: MANDATORY }`,
and leaves the checker state unchanged.  The yielded records carry an
`index` and a `breakType` only: the `text` field that the claim (and the
README) promise is absent from the `value` object built by the
iterator, so the claimed per-record `text` equality and the
concatenation property have no field to hold of. -/
theorem C1_iterator_records_at_failing_input :
    iterResults chHello =
      .ok ([⟨7, some BT.ALLOWED⟩, ⟨14, some BT.MANDATORY⟩], chHello) := rfl

/-! ### Claim C3 witness -/

theorem C3_witness :
    ((-1 : Int) < 0 ∨ ((([] : List Nat)).length : Int) < -1) ∧
    isPosLineBreaking (setText (mkChecker noEnv none v17rules) []) (-1) =
      .error "RangeError" :=
  ⟨Or.inl (by decide), C3_out_of_range_error noEnv none [] (-1) (Or.inl (by decide))⟩

/-! ### Claim C4 (missing table entry) -/

/-- Claim C4 counterexample: with an empty class table the code point 65
is not resolved to class AL with general category Cn; the class pushed
by the assignment loop is `undefined` (the JS switch falls through to
`default: classes.push(cls)` with `cls === undefined`), and
`getClsAndGC` yields `(undefined, "")`. -/
theorem C4_counterexample :
    noEnv.table 65 = none ∧
    assignLineBreakingClasses noEnv none [65] = [none] ∧
    [Option.none (α := String)] ≠ [some "AL"] ∧
    getClsAndGC noEnv 65 ≠ (some "AL", "Cn") :=
  ⟨rfl, rfl, by decide, by decide⟩

/-- Claim C4 as amended: a code point without a table entry resolves
(without a caller criterion) to the `undefined` class with general
category `""` from `getClsAndGC` (`undefined` from
`getGeneralCategory`), and no error is raised: the assignment is total
and simply records the undefined class. -/
theorem C4_amended_undefined_resolution (env : Env) (cp : Int) (cps : List Int)
    (h : env.table cp = none) :
    getClsAndGC env cp = (none, "") ∧
    getGeneralCategory env cp = none ∧
    assignLineBreakingClasses env none (cp :: cps) =
      none :: assignLineBreakingClasses env none cps := by
  refine ⟨by simp [getClsAndGC, h], by simp [getGeneralCategory, h], ?_⟩
  simp [assignLineBreakingClasses, getClsAndGC, h, resolveDefault]

theorem C4_witness :
    noEnv.table 65 = none ∧
    (getClsAndGC noEnv 65 = (none, "") ∧
     getGeneralCategory noEnv 65 = none ∧
     assignLineBreakingClasses noEnv none [65] =
       none :: assignLineBreakingClasses noEnv none []) :=
  ⟨rfl, C4_amended_undefined_resolution noEnv 65 [] rfl⟩

/-! ### Claim C5 (the parser does not enforce the verdict count) -/

/-- Claim C5 counterexample: the rule string "AL AL" contains no verdict
symbol, yet `parseRule` succeeds, returning a rule whose result is
`undefined` and whose after side is empty. -/
theorem C5_counterexample :
    (splitWs "AL AL").countP (fun t => (verdictTok? t).isSome) = 0 ∧
    parseRule ("AL AL", false) =
      .ok ⟨.seq [.cls "AL", .cls "AL"], .seq [], none, false⟩ :=
  ⟨rfl, rfl⟩

/-- Claim C5 as amended: the parser enforces no verdict-symbol count.
A rule without a verdict parses successfully (result `undefined`, after
side empty); a rule with two verdicts parses successfully with the last
verdict as the result; a parse error arises from an unrecognised token
(such as the glued "××"). -/
theorem C5_amended_parser_lenient :
    parseRule ("AL AL", false) =
      .ok ⟨.seq [.cls "AL", .cls "AL"], .seq [], none, false⟩ ∧
    (splitWs "AL × AL ÷ AL").countP (fun t => (verdictTok? t).isSome) = 2 ∧
    parseRule ("AL × AL ÷ AL", false) =
      .ok ⟨.seq [.cls "AL"], .seq [.cls "AL", .cls "AL"], some BT.ALLOWED, false⟩ ∧
    parseRule ("AL ×× AL", false) = .error "Unrecognized token: ××" :=
  ⟨rfl, rfl, rfl, rfl⟩

/-! ### Claim C7 (surrogate-pair interior) -/

/-- Claim C7: for any checker state whatsoever (in particular for any
rule list: no rule is consulted) a position strictly between the two
code units of a surrogate pair is FORBIDDEN. -/
theorem C7_surrogate_interior (ch : Checker) (i : Int)
    (h1 : 0 < i) (h2 : i < (ch.text.length : Int))
    (h3 : isSurrogatePair (ch.text.getD (i - 1).toNat 0) (ch.text.getD i.toNat 0) = true) :
    isPosLineBreaking ch i = .ok (some BT.FORBIDDEN, restoreView ch) := by
  unfold isPosLineBreaking
  rw [if_pos ⟨h1, h2, h3⟩]

def chPair : Checker := setText (mkChecker noEnv none v17rules) [0xD800, 0xDC00]

theorem C7_witness :
    (0 : Int) < 1 ∧ (1 : Int) < (chPair.text.length : Int) ∧
    isSurrogatePair (chPair.text.getD ((1 : Int) - 1).toNat 0) (chPair.text.getD (1 : Int).toNat 0) = true ∧
    isPosLineBreaking chPair 1 = .ok (some BT.FORBIDDEN, restoreView chPair) :=
  ⟨by decide, by decide, by decide,
    C7_surrogate_interior chPair 1 (by decide) (by decide) (by decide)⟩

/-! ### Claim C10 (empty text: the sot rule wins over the eot rule) -/

/-- Claim C10: after `set_text("")`, position 0 is FORBIDDEN (the LB2
rule `sot × any` matches first), even though the LB3 rule `any ! eot`
would also match there (second conjunct) — LB2 precedes LB3 in the rule
list (last conjuncts). -/
theorem C10_empty_text_sot_wins (env : Env)
    (crit : Option (Option String → String → Option String)) :
    isPosLineBreaking (setText (mkChecker env crit v17rules) []) 0 =
      .ok (some BT.FORBIDDEN, setText (mkChecker env crit v17rules) []) ∧
    checkRule (consumeFuel (setText (mkChecker env crit v17rules) []))
        (setText (mkChecker env crit v17rules) []) vr1 (some 0) =
      .ok (some BT.MANDATORY, setText (mkChecker env crit v17rules) []) ∧
    v17rules.head? = some vr0 ∧ v17rules.get? 1 = some vr1 :=
  ⟨rfl, rfl, rfl, rfl⟩


/-! ### Claim C6 (the view swap is confined to the call) -/

theorem restoreView_of_false (ch : Checker) (h : ch.applyOffset = false) :
    restoreView ch = ch := by
  simp [restoreView, h]

theorem removeCS_idem (ch : Checker) :
    removeCombiningSequences (removeCombiningSequences ch) = removeCombiningSequences ch := rfl

/-- The matcher itself never writes the checker state: `#checkRule`
either returns the state unchanged or applies the
`removeCombiningSequences` side effect. -/
theorem checkRule_state (f : Nat) (ch : Checker) (r : Rule) (i : JNum)
    (v : Option Nat) (ch2 : Checker)
    (h : checkRule f ch r i = .ok (v, ch2)) :
    ch2 = ch ∨ ch2 = removeCombiningSequences ch := by
  unfold checkRule at h
  split at h
  · simp at h
  · split at h
    · split at h
      · simp at h
      · split at h
        · simp only [Except.ok.injEq, Prod.mk.injEq] at h
          exact Or.inl h.2.symm
        · simp only [Except.ok.injEq, Prod.mk.injEq] at h
          obtain ⟨-, h2⟩ := h
          split at h2
          · exact Or.inr h2.symm
          · exact Or.inl h2.symm
    · simp only [Except.ok.injEq, Prod.mk.injEq] at h
      obtain ⟨-, h2⟩ := h
      split at h2
      · exact Or.inr h2.symm
      · exact Or.inl h2.symm

theorem checkRules_state (f : Nat) (rules : List Rule) :
    ∀ (ch : Checker) (i : Int) (v : Option Nat) (ch2 : Checker),
      checkRules f rules ch i = .ok (v, ch2) →
      ch2 = ch ∨ ch2 = removeCombiningSequences ch := by
  induction rules with
  | nil =>
      intro ch i v ch2 h
      simp only [checkRules] at h
      cases h
      exact Or.inl rfl
  | cons r rest ih =>
      intro ch i v ch2 h
      simp only [checkRules] at h
      split at h
      · simp at h
      · rename_i res chm hcr
        have hm := checkRule_state f ch r (ruleIndex ch i) res chm hcr
        split at h
        · simp only [Except.ok.injEq, Prod.mk.injEq] at h
          obtain ⟨-, h2⟩ := h
          subst h2
          exact hm
        · rcases ih chm i v ch2 h with h2 | h2 <;> rcases hm with h3 | h3 <;>
            subst h3 <;> subst h2 <;>
            simp [removeCS_idem]
  
/-- Claim C6: a top-level `is_break_at` call that returns normally
leaves `apply_offset` false and the active class and code point views
equal to the ones installed by `set_text`, whichever rules ran and
whether or not the LB9/LB10 side effect swapped the views during the
call; and `apply_offset` is false immediately after `set_text`. -/
theorem C6_state_restored (env : Env)
    (crit : Option (Option String → String → Option String))
    (rules : List Rule) (text : List Nat) (i : Int) (res : Option Nat) (chF : Checker)
    (h : isPosLineBreaking (setText (mkChecker env crit rules) text) i = .ok (res, chF)) :
    chF.applyOffset = false ∧
    chF.classes = (setText (mkChecker env crit rules) text).classes ∧
    chF.codePoints = (setText (mkChecker env crit rules) text).codePoints ∧
    (setText (mkChecker env crit rules) text).applyOffset = false := by
  set ch0 := setText (mkChecker env crit rules) text with hch
  have h0 : ch0.applyOffset = false := by rw [hch]; rfl
  unfold isPosLineBreaking at h
  split at h
  · cases h
    rw [restoreView_of_false ch0 h0]
    exact ⟨h0, rfl, rfl, h0⟩
  · cases hcr : checkRules (consumeFuel ch0) ch0.rules ch0 i with
    | error e => rw [hcr] at h; cases h
    | ok p =>
        obtain ⟨r2, chm⟩ := p
        rw [hcr] at h
        simp only [Except.ok.injEq, Prod.mk.injEq] at h
        obtain ⟨-, h4⟩ := h
        subst h4
        rcases checkRules_state (consumeFuel ch0) ch0.rules ch0 i r2 chm hcr with h2 | h2
        · subst h2
          rw [restoreView_of_false ch0 h0]
          exact ⟨h0, rfl, rfl, h0⟩
        · subst h2
          refine ⟨rfl, ?_, ?_, h0⟩
          · show (restoreView (removeCombiningSequences ch0)).classes = ch0.classes
            rw [hch]
            rfl
          · show (restoreView (removeCombiningSequences ch0)).codePoints = ch0.codePoints
            rw [hch]
            rfl

def chLetterA : Checker := setText (mkChecker noEnv none v17rules) [97]

theorem C6_witness :
    isPosLineBreaking chLetterA 0 = .ok (some BT.FORBIDDEN, chLetterA) ∧
    (chLetterA.applyOffset = false ∧
     chLetterA.classes = chLetterA.classes ∧
     chLetterA.codePoints = chLetterA.codePoints ∧
     chLetterA.applyOffset = false) :=
  ⟨rfl, C6_state_restored noEnv none v17rules [97] 0 (some BT.FORBIDDEN) chLetterA rfl⟩


/-! ### Claim C8 (the combining-sequence transform) -/

/-- Claim C8: the transform scans the class array once; a CM/ZWJ entry
whose predecessor is absent or one of SP, BK, CR, LF, NL, ZW is
replaced by a synthesised AL entry with code point U+0041; any other
CM/ZWJ entry is dropped and the running offset is incremented; every
other entry is copied; the running offset is recorded at every step and
once more at the end, so the offset array has one entry per scanned
code point plus one. -/
theorem csAux_offs_length :
    ∀ (pairs : List (Option String × Int)) (prev : Option String) (tot : Nat),
      (csAux pairs prev tot).2.2.length = pairs.length + 1 := by
  intro pairs
  induction pairs with
  | nil => intro prev tot; simp [csAux]
  | cons p rest ih =>
      intro prev tot
      obtain ⟨el, cp⟩ := p
      simp only [csAux]
      split
      · split <;> simp [ih]
      · simp [ih]

theorem C8_combining_transform :
    (∀ (pairs : List (Option String × Int)) (prev : Option String) (tot : Nat),
      (csAux pairs prev tot).2.2.length = pairs.length + 1) ∧
    (∀ (el : Option String) (cp : Int) (rest : List (Option String × Int))
        (prev : Option String) (tot : Nat),
      (el = some "CM" ∨ el = some "ZWJ") →
      (prev = none ∨ prev = some "SP" ∨ prev = some "BK" ∨ prev = some "CR" ∨
        prev = some "LF" ∨ prev = some "NL" ∨ prev = some "ZW") →
      csAux ((el, cp) :: rest) prev tot =
        (some "AL" :: (csAux rest el tot).1, (0x41 : Int) :: (csAux rest el tot).2.1,
          tot :: (csAux rest el tot).2.2)) ∧
    (∀ (el : Option String) (cp : Int) (rest : List (Option String × Int))
        (c : String) (tot : Nat),
      (el = some "CM" ∨ el = some "ZWJ") →
      c ≠ "" →
      (c ≠ "SP" ∧ c ≠ "BK" ∧ c ≠ "CR" ∧ c ≠ "LF" ∧ c ≠ "NL" ∧ c ≠ "ZW") →
      csAux ((el, cp) :: rest) (some c) tot =
        ((csAux rest el (tot + 1)).1, (csAux rest el (tot + 1)).2.1,
          (tot + 1) :: (csAux rest el (tot + 1)).2.2)) ∧
    (∀ (el : Option String) (cp : Int) (rest : List (Option String × Int))
        (prev : Option String) (tot : Nat),
      ¬(el = some "CM" ∨ el = some "ZWJ") →
      csAux ((el, cp) :: rest) prev tot =
        (el :: (csAux rest el tot).1, cp :: (csAux rest el tot).2.1,
          tot :: (csAux rest el tot).2.2)) := by
  refine ⟨csAux_offs_length, ?_, ?_, ?_⟩
  · intro el cp rest prev tot h1 h2
    have hcond : jsFalsyStr prev = true ∨ (prev = some "SP" ∨ prev = some "BK" ∨
        prev = some "CR" ∨ prev = some "LF" ∨ prev = some "NL" ∨ prev = some "ZW") := by
      rcases h2 with h | h
      · subst h; exact Or.inl rfl
      · exact Or.inr h
    simp only [csAux]
    rw [if_pos h1, if_pos hcond]
  · intro el cp rest c tot h1 h2 h3
    obtain ⟨n1, n2, n3, n4, n5, n6⟩ := h3
    have hcond : ¬(jsFalsyStr (some c) = true ∨ (some c = some "SP" ∨ some c = some "BK" ∨
        some c = some "CR" ∨ some c = some "LF" ∨ some c = some "NL" ∨ some c = some "ZW")) := by
      simp [jsFalsyStr, h2, n1, n2, n3, n4, n5, n6]
    simp only [csAux]
    rw [if_pos h1, if_neg hcond]
  · intro el cp rest prev tot h1
    simp only [csAux]
    rw [if_neg h1]

theorem C8_witness :
    (csAux [(some "CM", 7)] none 0 =
      (some "AL" :: (csAux [] (some "CM") 0).1, (0x41 : Int) :: (csAux [] (some "CM") 0).2.1,
        0 :: (csAux [] (some "CM") 0).2.2)) ∧
    (csAux [(some "ZWJ", 8)] (some "AL") 0 =
      ((csAux [] (some "ZWJ") 1).1, (csAux [] (some "ZWJ") 1).2.1,
        1 :: (csAux [] (some "ZWJ") 1).2.2)) ∧
    (csAux [(some "SP", 32)] none 0 =
      (some "SP" :: (csAux [] (some "SP") 0).1, (32 : Int) :: (csAux [] (some "SP") 0).2.1,
        0 :: (csAux [] (some "SP") 0).2.2)) ∧
    (csAux [(some "CM", 7), (some "SP", 32)] none 0).2.2.length =
      [(some "CM", 7), (some "SP", 32)].length + 1 :=
  ⟨C8_combining_transform.2.1 (some "CM") 7 [] none 0 (Or.inl rfl) (Or.inl rfl),
   C8_combining_transform.2.2.1 (some "ZWJ") 8 [] "AL" 0 (Or.inr rfl) (by decide)
     ⟨by decide, by decide, by decide, by decide, by decide, by decide⟩,
   C8_combining_transform.2.2.2 (some "SP") 32 [] none 0 (by decide),
   C8_combining_transform.1 [(some "CM", 7), (some "SP", 32)] none 0⟩


/-! ### Claim C9 (the `*` modifier) -/

/-- Modelled from the spec (section 4.5, `modifier *`, and claim C9):
evaluate the operand repeatedly, advancing the index by `step` after
each successful match, while the returned index stays strictly within
`(0, n_codepoints - 1)`; stop at the first failure (or when the index
leaves that interval), leaving the index of that last evaluation.  The
operand evaluator receives the embedding fuel explicitly. -/
def starZeroOrMore (op : Nat → JNum → Except String CRes) (step : Int) (n : Int) :
    Nat → CRes → Except String CRes
  | 0, _ => .error "FUEL"
  | f+1, r =>
      if r.result ∧ jgt r.index (some 0) ∧ jlt r.index (some (n - 1)) then
        match op f (jadd r.index (some step)) with
        | .error e => .error e
        | .ok r2 => starZeroOrMore op step n f r2
      else .ok r

/-- The `while` loop of the source is exactly the loop described by the
claim. -/
theorem consumeStar_eq_spec (ch : Checker) (t : Token) (ntk : Nat) (step : Int)
    (parent : Option Token) :
    ∀ (f : Nat) (r : CRes) (i : JNum),
      consume f ch (.star t ntk r) i step parent =
        starZeroOrMore (fun g j => consume g ch (.tok t (some true) (ntk + 1)) j step parent)
          step ((ch.codePoints.length : Int)) f r := by
  intro f
  induction f with
  | zero => intro r i; rfl
  | succ f ih =>
      intro r i
      simp only [consume, starZeroOrMore]
      by_cases hc : r.result = true ∧ jgt r.index (some 0) = true ∧
          jlt r.index (some ((ch.codePoints.length : Int) - 1)) = true
      · rw [if_pos ⟨hc.1, hc.2.1, hc.2.2⟩, if_pos ⟨hc.1, hc.2.1, hc.2.2⟩, hc.1]
        cases consume f ch (.tok t (some true) (ntk + 1)) (jadd r.index (some step)) step parent with
        | error e => rfl
        | ok r2 => exact ih r2 i
      · have hc2 : ¬(r.result = true ∧ jgt r.index (some 0) = true ∧
            jlt r.index (some ((ch.codePoints.length : Int) - 1)) = true) := hc
        rw [if_neg hc2, if_neg hc2]

/-- Claim C9: evaluating a `*` modifier token (whose operand is the next
sibling) always returns `result = true` when it returns at all, and its
whole evaluation is the initial operand evaluation followed by the
zero-or-more loop of `starZeroOrMore`, whose final index (the first
failure, or where the interior-bound test stopped the iteration)
becomes the returned index. -/
theorem C9_star_modifier (f : Nat) (ch : Checker) (t : Token) (i : JNum) (step : Int)
    (parent : Option Token) (prev : Option Bool) (ntk : Nat)
    (hsib : sibling parent ntk = .ok t) :
    (∀ res, consumeToken (f + 1) ch (.modifier "*") i step parent prev ntk = .ok res →
      res.result = true) ∧
    consumeToken (f + 1) ch (.modifier "*") i step parent prev ntk =
      (match consumeToken f ch t i step parent prev (ntk + 1) with
       | .error e => .error e
       | .ok r0 =>
          match starZeroOrMore
              (fun g j => consume g ch (.tok t (some true) (ntk + 1)) j step parent)
              step ((ch.codePoints.length : Int)) f r0 with
          | .error e => .error e
          | .ok rL => .ok ⟨true, rL.index, some (rL.next.getD (ntk + 1))⟩) := by
  have heq : consumeToken (f + 1) ch (.modifier "*") i step parent prev ntk =
      (match consumeToken f ch t i step parent prev (ntk + 1) with
       | .error e => .error e
       | .ok r0 =>
          match starZeroOrMore
              (fun g j => consume g ch (.tok t (some true) (ntk + 1)) j step parent)
              step ((ch.codePoints.length : Int)) f r0 with
          | .error e => .error e
          | .ok rL => .ok ⟨true, rL.index, some (rL.next.getD (ntk + 1))⟩) := by
    show consume (f + 1) ch (.tok (.modifier "*") prev ntk) i step parent = _
    simp only [consume]
    rw [hsib]
    simp only [consumeToken]
    rw [if_neg (by decide : ¬("*" : String) = "^"), if_neg (by decide : ¬("*" : String) = "&"),
      if_neg (by decide : ¬("*" : String) = "-"), if_pos trivial]
    cases consume f ch (.tok t prev (ntk + 1)) i step parent with
    | error e => rfl
    | ok r0 => simp only [consumeStar_eq_spec ch t ntk step parent]
  refine ⟨?_, heq⟩
  intro res hres
  rw [heq] at hres
  cases h0 : consumeToken f ch t i step parent prev (ntk + 1) with
  | error e => rw [h0] at hres; cases hres
  | ok r0 =>
      rw [h0] at hres
      cases hL : starZeroOrMore
          (fun g j => consume g ch (.tok t (some true) (ntk + 1)) j step parent)
          step ((ch.codePoints.length : Int)) f r0 with
      | error e => simp only [hL] at hres; cases hres
      | ok rL =>
          simp only [hL] at hres
          cases hres
          rfl


theorem C9_witness :
    sibling (some (Token.seq [.modifier "*", .cls "SP"])) 1 = .ok (.cls "SP") ∧
    consumeToken 11 chLetterA (.modifier "*") (some 0) 1
        (some (.seq [.modifier "*", .cls "SP"])) none 1 = .ok ⟨true, some 0, some 2⟩ ∧
    (⟨true, some 0, some 2⟩ : CRes).result = true :=
  ⟨rfl, rfl,
    (C9_star_modifier 10 chLetterA (.cls "SP") (some 0) 1
        (some (.seq [.modifier "*", .cls "SP"])) none 1 rfl).1 ⟨true, some 0, some 2⟩ rfl⟩

/-! ### Claim C2 (boundary verdicts)

The key bookkeeping fact is the surrogate-offset invariant: after
`#setCodePoints`, the entry of `offsetsSurrogates` at the final
code-unit position equals the number of code units minus the number of
decoded code points, so the matcher maps position `text_length` to the
code point index `codePoints.length`.
-/

theorem codePointAtCur_not_pair (u : Nat) (next : Option Nat)
    (hnp : ∀ l, next = some l → ¬((0xd800 ≤ u ∧ u ≤ 0xdbff) ∧ (0xdc00 ≤ l ∧ l ≤ 0xdfff))) :
    codePointAtCur u next = (u : Int) := by
  cases hr : next with
  | none => rfl
  | some l =>
      simp only [codePointAtCur]
      rw [if_neg (hnp l hr)]

theorem computeCodePoint_big (u l : Nat) (hu : 0xd800 ≤ u) (hl : 0xdc00 ≤ l) :
    65535 < computeCodePointFromSurrogatePair u l := by
  unfold computeCodePointFromSurrogatePair
  have hten : (10 : Int) = ((10 : Nat) : Int) := by norm_num
  have h1 : ((u : Int) <<< 10) = (u : Int) * 1024 := by
    rw [hten, Int.shiftLeft_eq_mul_pow]
    norm_num
  have h2 : ((0xd800 : Int) <<< 10) = 0xd800 * 1024 := by
    rw [hten, Int.shiftLeft_eq_mul_pow]
    norm_num
  rw [h1, h2]
  have hu2 : (0xd800 : Int) ≤ (u : Int) := by exact_mod_cast hu
  have hl2 : (0xdc00 : Int) ≤ (l : Int) := by exact_mod_cast hl
  omega

/-- One decoding step for a unit that does not start a surrogate pair. -/
theorem setCodePointsAux_cons_small (u : Nat) (rest : List Nat) (off : Nat)
    (hcp : codePointAtCur u rest.head? = (u : Int)) (hsmall : ¬(65535 < (u : Int))) :
    setCodePointsAux (u :: rest) false off =
      ((u : Int) :: (setCodePointsAux rest false off).1,
        off :: (setCodePointsAux rest false off).2) := by
  simp only [setCodePointsAux, hcp]
  simp [hsmall]

/-- Two decoding steps for a surrogate pair: one code point, two offset
entries, and the running offset grows by one. -/
theorem setCodePointsAux_cons_pair (u l : Nat) (rest2 : List Nat) (off : Nat)
    (hpair : (0xd800 ≤ u ∧ u ≤ 0xdbff) ∧ (0xdc00 ≤ l ∧ l ≤ 0xdfff)) (hl : l ≤ 65535) :
    setCodePointsAux (u :: l :: rest2) false off =
      (computeCodePointFromSurrogatePair u l :: (setCodePointsAux rest2 false (off + 1)).1,
        off :: (off + 1) :: (setCodePointsAux rest2 false (off + 1)).2) := by
  have hcp : codePointAtCur u (some l) = computeCodePointFromSurrogatePair u l := by
    simp only [codePointAtCur]
    rw [if_pos hpair]
  have hbig := computeCodePoint_big u l hpair.1.1 hpair.2.1
  have hcp2 : codePointAtCur l rest2.head? = (l : Int) := by
    apply codePointAtCur_not_pair
    intro l2 _ hcon
    have h1 := hpair.2.1
    have h2 := hcon.1.2
    omega
  have hsmall : ¬(65535 < (l : Int)) := by exact_mod_cast Nat.not_lt.mpr hl
  simp only [setCodePointsAux, List.head?_cons, hcp, hcp2]
  simp [hbig, hsmall]

theorem setCodePointsAux_inv :
    ∀ (k : Nat) (us : List Nat), us.length ≤ k → (∀ u ∈ us, u ≤ 65535) → ∀ (off : Nat),
      (setCodePointsAux us false off).1.length ≤ us.length ∧
      (setCodePointsAux us false off).2.get? us.length =
        some (off + (us.length - (setCodePointsAux us false off).1.length)) ∧
      (us ≠ [] → 1 ≤ (setCodePointsAux us false off).1.length) := by
  intro k
  induction k with
  | zero =>
      intro us h hv off
      obtain rfl : us = [] := List.length_eq_zero.mp (Nat.le_zero.mp h)
      refine ⟨by simp [setCodePointsAux], by simp [setCodePointsAux], by simp⟩
  | succ k ih =>
      intro us h hv off
      match us with
      | [] => refine ⟨by simp [setCodePointsAux], by simp [setCodePointsAux], by simp⟩
      | u :: rest =>
          have hu : u ≤ 65535 := hv u (by simp)
          by_cases hp : ∃ l rest2, rest = l :: rest2 ∧
              ((0xd800 ≤ u ∧ u ≤ 0xdbff) ∧ (0xdc00 ≤ l ∧ l ≤ 0xdfff))
          · obtain ⟨l, rest2, rfl, hpair⟩ := hp
            have hl : l ≤ 65535 := hv l (by simp)
            rw [setCodePointsAux_cons_pair u l rest2 off hpair hl]
            obtain ⟨ih1, ih2, _⟩ := ih rest2 (by simp at h ⊢; omega)
              (fun x hx => hv x (by simp [hx])) (off + 1)
            refine ⟨by simp; omega, ?_, by simp⟩
            simp only [List.length_cons, List.get?_cons_succ]
            rw [ih2]
            congr 1
            omega
          · have hcp : codePointAtCur u rest.head? = (u : Int) := by
              apply codePointAtCur_not_pair
              intro l hls hcon
              apply hp
              cases rest with
              | nil => simp at hls
              | cons a tail =>
                  simp only [List.head?_cons, Option.some.injEq] at hls
                  exact ⟨l, tail, by rw [hls], hcon⟩
            have hsmall : ¬(65535 < (u : Int)) := by exact_mod_cast Nat.not_lt.mpr hu
            rw [setCodePointsAux_cons_small u rest off hcp hsmall]
            obtain ⟨ih1, ih2, _⟩ := ih rest (by simp at h; omega)
              (fun x hx => hv x (by simp [hx])) off
            refine ⟨by simp; omega, ?_, by simp⟩
            simp only [List.length_cons, List.get?_cons_succ]
            rw [ih2]
            congr 1
            omega


theorem setCodePointsAux_offs_head (us : List Nat) (b : Bool) (off : Nat) :
    (setCodePointsAux us b off).2.get? 0 = some off := by
  cases us <;> rfl

theorem setText_codePoints (ch : Checker) (text : List Nat) :
    (setText ch text).codePoints = (setCodePoints text).1 := rfl

theorem setText_text (ch : Checker) (text : List Nat) :
    (setText ch text).text = text := rfl

/-- The index fed to a rule at a defined position with `apply_offset`
down: `i - offsetsSurrogates[i]` (the combining-sequence offset is
multiplied by zero). -/
theorem ruleIndex_of_offsets (ch : Checker) (i : Int) (v : Nat) (c : Nat)
    (h1 : jgetI ch.offsetsSurrogates i = some v)
    (hvle : (v : Int) ≤ i)
    (h2 : ch.offsetsCombiningSeqs.get? (i - (v : Int)).toNat = some c)
    (h3 : ch.applyOffset = false) :
    ruleIndex ch i = some (i - (v : Int)) := by
  have hnng : ¬(i - (v : Int) < 0) := by omega
  simp only [ruleIndex, h1, h3, jsub, jget?]
  rw [if_neg hnng, h2]
  simp

/-- The before side of LB2, `[sot]`, evaluated at any index. -/
theorem consume_seq_sot (f : Nat) (ch : Checker) (i : JNum) (step : Int)
    (p : Option Token) (pr : Option Bool) (ntk : Nat) :
    consumeToken (f + 40) ch (.seq [.base "sot"]) i step p pr ntk =
      (if jlt i (some 0) = false then .ok ⟨false, i, none⟩
       else .ok ⟨true, jadd i (some step), none⟩) := rfl

/-- A one-token sequence `[any]` always matches and advances. -/
theorem consume_seq_any (f : Nat) (ch : Checker) (i : JNum) (step : Int)
    (p : Option Token) (pr : Option Bool) (ntk : Nat) :
    consumeToken (f + 40) ch (.seq [.base "any"]) i step p pr ntk =
      .ok ⟨true, jadd i (some step), none⟩ := rfl

/-- The after side of LB3, `[eot]`, evaluated at any index. -/
theorem consume_seq_eot (f : Nat) (ch : Checker) (i : JNum) (step : Int)
    (p : Option Token) (pr : Option Bool) (ntk : Nat) :
    consumeToken (f + 40) ch (.seq [.base "eot"]) i step p pr ntk =
      (if jeq i (some (ch.codePoints.length : Int)) = false then .ok ⟨false, i, none⟩
       else .ok ⟨true, jadd i (some step), none⟩) := rfl

/-- LB2 matches at a code point index below one. -/
theorem checkRule_vr0_match (f : Nat) (ch : Checker) (k : Int) (h : k + -1 < 0) :
    checkRule (f + 40) ch vr0 (some k) = .ok (some BT.FORBIDDEN, ch) := by
  unfold checkRule
  simp only [vr0]
  rw [consume_seq_sot, consume_seq_any]
  have hb : jlt (jadd (some k) (some (-1))) (some 0) = true := by
    simp only [jadd, jlt]
    simpa using h
  rw [hb]
  simp

/-- LB2 fails at a positive code point index (and has no side effect). -/
theorem checkRule_vr0_fail (f : Nat) (ch : Checker) (k : Int) (h : ¬(k + -1 < 0)) :
    checkRule (f + 40) ch vr0 (some k) = .ok (some BT.UNKNOWN, ch) := by
  unfold checkRule
  simp only [vr0]
  rw [consume_seq_sot]
  have hb : jlt (jadd (some k) (some (-1))) (some 0) = false := by
    simp only [jadd, jlt]
    simpa using h
  rw [hb]
  simp

/-- LB3 matches exactly at the index equal to the length of the active
code point array. -/
theorem checkRule_vr1_match (f : Nat) (ch : Checker) (k : Int)
    (hk : jeq (some k) (some (ch.codePoints.length : Int)) = true) :
    checkRule (f + 40) ch vr1 (some k) = .ok (some BT.MANDATORY, ch) := by
  unfold checkRule
  simp only [vr1]
  rw [consume_seq_any, consume_seq_eot, hk]
  simp

theorem checkRules_cons_stop (f : Nat) (r : Rule) (rest : List Rule)
    (ch ch2 : Checker) (i : Int) (v : Option Nat)
    (h : checkRule f ch r (ruleIndex ch i) = .ok (v, ch2)) (hv : v ≠ some BT.UNKNOWN) :
    checkRules f (r :: rest) ch i = .ok (v, ch2) := by
  simp only [checkRules]
  rw [h]
  simp [hv]

/-- Claim C2: for every non-empty valid UTF-16 text, position 0 is
FORBIDDEN (LB2) and position `text_length` is MANDATORY (LB3). -/
theorem C2_boundary_verdicts (env : Env)
    (crit : Option (Option String → String → Option String))
    (text : List Nat) (hne : text ≠ []) (hv : ∀ u ∈ text, u ≤ 65535) :
    isPosLineBreaking (setText (mkChecker env crit v17rules) text) 0 =
      .ok (some BT.FORBIDDEN, setText (mkChecker env crit v17rules) text) ∧
    isPosLineBreaking (setText (mkChecker env crit v17rules) text) (text.length : Int) =
      .ok (some BT.MANDATORY, setText (mkChecker env crit v17rules) text) := by
  set ch0 := setText (mkChecker env crit v17rules) text with hch
  obtain ⟨hle, hgetL, hge1⟩ := setCodePointsAux_inv text.length text le_rfl hv 0
  have hn1 : 1 ≤ (setCodePoints text).1.length := hge1 hne
  have hnL : (setCodePoints text).1.length ≤ text.length := hle
  have happly : ch0.applyOffset = false := by rw [hch]; rfl
  have hrules : ch0.rules = vr0 :: vr1 :: v17rules.drop 2 := by
    rw [hch, setText_rules]
    exact v17rules_head
  have hcsl : ch0.offsetsCombiningSeqs.length = (setCodePoints text).1.length + 1 := by
    rw [hch]
    show (csAux ((assignLineBreakingClasses env crit (setCodePoints text).1).zip
      (setCodePoints text).1) none 0).2.2.length = _
    rw [csAux_offs_length]
    simp [assignLineBreakingClasses]
  obtain ⟨m, hm⟩ : ∃ m, consumeFuel ch0 = m + 40 :=
    ⟨consumeFuel ch0 - 40, by unfold consumeFuel; omega⟩
  obtain ⟨c0, hc0⟩ : ∃ c, ch0.offsetsCombiningSeqs.get? 0 = some c :=
    ⟨_, List.get?_eq_get (by omega)⟩
  obtain ⟨cn, hcn⟩ : ∃ c,
      ch0.offsetsCombiningSeqs.get? (setCodePoints text).1.length = some c :=
    ⟨_, List.get?_eq_get (by omega)⟩
  have hOS0 : jgetI ch0.offsetsSurrogates 0 = some 0 := by
    rw [hch, setText_offsetsSurrogates]
    unfold jgetI
    rw [if_neg (by norm_num)]
    exact setCodePointsAux_offs_head text false 0
  have hidx0 : ruleIndex ch0 0 = some 0 := by
    have h12 := ruleIndex_of_offsets ch0 0 0 c0 hOS0 (by norm_num)
      (by simpa using hc0) happly
    simpa using h12
  have hOSL : jgetI ch0.offsetsSurrogates (text.length : Int) =
      some (text.length - (setCodePoints text).1.length) := by
    rw [hch, setText_offsetsSurrogates]
    unfold jgetI
    rw [if_neg (by omega)]
    rw [Int.toNat_natCast]
    simpa using hgetL
  have hLn : ((text.length : Int) -
      ((text.length - (setCodePoints text).1.length : Nat) : Int)) =
      ((setCodePoints text).1.length : Int) := by omega
  have hidxL : ruleIndex ch0 (text.length : Int) =
      some ((setCodePoints text).1.length : Int) := by
    have h12 := ruleIndex_of_offsets ch0 (text.length : Int)
      (text.length - (setCodePoints text).1.length) cn hOSL (by omega)
      (by rw [hLn, Int.toNat_natCast]; exact hcn) happly
    rw [h12, hLn]
  have hcp0 : ch0.codePoints = (setCodePoints text).1 := by
    rw [hch, setText_codePoints]
  constructor
  · have hguard : ¬((0 : Int) < 0 ∧ (0 : Int) < (ch0.text.length : Int) ∧
        isSurrogatePair (ch0.text.getD ((0 : Int) - 1).toNat 0)
          (ch0.text.getD (0 : Int).toNat 0)) := by
      rintro ⟨h1, -, -⟩
      exact absurd h1 (by norm_num)
    have s0 : checkRule (m + 40) ch0 vr0 (ruleIndex ch0 0) =
        .ok (some BT.FORBIDDEN, ch0) := by
      rw [hidx0]
      exact checkRule_vr0_match m ch0 0 (by norm_num)
    unfold isPosLineBreaking
    rw [if_neg hguard, hm, hrules,
      checkRules_cons_stop _ _ _ _ _ _ _ s0 (by decide)]
    simp [restoreView_of_false ch0 happly]
  · have hguard : ¬((0 : Int) < (text.length : Int) ∧
        (text.length : Int) < (ch0.text.length : Int) ∧
        isSurrogatePair (ch0.text.getD ((text.length : Int) - 1).toNat 0)
          (ch0.text.getD (text.length : Int).toNat 0)) := by
      rw [hch, setText_text]
      rintro ⟨-, h2, -⟩
      exact absurd h2 (lt_irrefl _)
    have s0 : checkRule (m + 40) ch0 vr0 (ruleIndex ch0 (text.length : Int)) =
        .ok (some BT.UNKNOWN, ch0) := by
      rw [hidxL]
      exact checkRule_vr0_fail m ch0 _ (by omega)
    have s1 : checkRule (m + 40) ch0 vr1 (ruleIndex ch0 (text.length : Int)) =
        .ok (some BT.MANDATORY, ch0) := by
      rw [hidxL]
      apply checkRule_vr1_match
      rw [hcp0]
      simp [jeq]
    unfold isPosLineBreaking
    rw [if_neg hguard, hm, hrules,
      checkRules_cons_unknown _ _ _ _ _ _ s0,
      checkRules_cons_stop _ _ _ _ _ _ _ s1 (by decide)]
    simp [restoreView_of_false ch0 happly]

theorem C2_witness :
    ([97] : List Nat) ≠ [] ∧ (∀ u ∈ ([97] : List Nat), u ≤ 65535) ∧
    (isPosLineBreaking chLetterA 0 = .ok (some BT.FORBIDDEN, chLetterA) ∧
     isPosLineBreaking chLetterA (([97] : List Nat).length : Int) =
       .ok (some BT.MANDATORY, chLetterA)) :=
  ⟨by decide, by decide, C2_boundary_verdicts noEnv none [97] (by decide) (by decide)⟩

end LBC
